import Mathlib

/-!
# Dropbear `svr-main.c`: connection admission and session dispatch

A shallow embedding of `main_noinetd`, `handle_udp_packet` and `listensockets`
from `src/svr-main.c`, followed by theorems about the embedded code.

Modelling conventions.

* C arrays (`listensocks`, `udpsocks`, `childpipes`, `preauth_addrs`,
  `svr_opts.ports`, `svr_opts.addresses`) are maps from cell index to cell
  content.  Only the cells below the declared capacity belong to the array; a
  read of another index yields whatever the map holds there.
* `size_t` is 64 bits wide and `unsigned int` 32 bits wide (LP64); every
  addition of an `int` to a `size_t` is reduced modulo `2^64`.
* `MAX_LISTEN_ADDR`, `MAX_UNAUTH_CLIENTS`, `MAX_UNAUTH_PER_IP` and
  `DROPBEAR_DEFADDRESS` come from a header that is not part of the source
  file; they are parameters (`Limits`).
* The counters `i`, `j`, `n` of the counting loops are not reduced modulo
  `2^32`; this is exact as long as the loop bound is below `2^32`.  The one
  loop whose bound can leave that range on a reachable path (lines 259-262)
  is modelled with the wrap (`add_new_fds`).
* The calls into the operating system and into other translation units
  (`select`, `accept`, `pipe`, `fork`, `recvfrom`, `getaddrstring`,
  `dropbear_listen`, `dropbear_open_udp_sock`, `setsid`) are answered by an
  environment record, one per place where the code makes the call.
* An `fd_set` is the list of the descriptors in it: `FD_SET` appends,
  `FD_ISSET` is membership, and `select` keeps the watched descriptors that
  the environment reports ready.
* Every external call that acts on the outside world is appended to
  `State.trace`; descriptors the process holds open are kept in
  `State.open_fds`.
* A piece of code that can leave the loop yields an `Exec`: it returns
  (`Exec.ok`) or stops (`Exec.stop`) because the process exits, becomes the
  helper or the session child, or does not terminate.  The datagram loop,
  whose counter is overwritten inside its body, runs on fuel.
* `TRACE((...))` debugging output is not modelled.
-/

namespace Dropbear

/-! ## Constants and machine arithmetic -/

/-- The compile-time limits used by `svr-main.c`. -/
structure Limits where
  MAX_LISTEN_ADDR : Nat
  MAX_UNAUTH_CLIENTS : Nat
  MAX_UNAUTH_PER_IP : Nat
  DROPBEAR_DEFADDRESS : String

/-- The modulus of `size_t`. -/
def SIZE_MOD : Nat := 2 ^ 64

/-- The modulus of `unsigned int`. -/
def UINT_MOD : Nat := 2 ^ 32

/-- The sentinel `0xDEADBEEF` a trigger datagram has to carry. -/
def MAGIC : Nat := 0xDEADBEEF

/-- The C expression `a + b` for `size_t a` and `int b`: `b` is converted to
`size_t` and the sum wraps modulo `2^64`. -/
def size_add_int (a : Nat) (b : Int) : Nat :=
  (((a : Int) + b) % (SIZE_MOD : Int)).toNat

/-- The C expression `a - b` for `size_t a`, `size_t b`, passed to a parameter
of type `unsigned int`. -/
def size_sub_to_uint (a b : Nat) : Nat :=
  ((((a : Int) - (b : Int)) % (SIZE_MOD : Int)).toNat) % UINT_MOD

/-- The cast `(unsigned int)n` of an `int`. -/
def int_to_uint (n : Int) : Nat :=
  (n % (UINT_MOD : Int)).toNat

/-! ## Data -/

/-- The `listen_packet_t` record received on the datagram socket. -/
structure listen_packet_t where
  magic : Nat
  port_number : Nat
  shell_command : String

/-- The fields of the global `svr_opts` that `svr-main.c` touches. -/
structure svr_runopts where
  ports : Nat → String
  addresses : Nat → String
  portcount : Nat
  udp_port_index : Nat
  pidfile : String

/-- A `char *` cell of `preauth_addrs`: `NULL`, a string owned by the cell, or
a pointer whose string has been handed to `m_free`. -/
inductive AddrPtr where
  | null
  | live (s : String)
  | freed
  deriving DecidableEq, Repr

/-- One call that acts outside the process image. -/
inductive Event where
  | fork (ret : Int)
  | waitpid (pid : Int)
  | setgid (gid : Nat)
  | setuid (uid : Nat)
  | system (cmd : String)
  | exit (code : Int)
  | dropbear_listen (address port : String) (cap : Nat) (ret : Int)
  | dropbear_open_udp_sock (address port : String) (cap : Nat) (ret : Int)
  | dropbear_log (msg : String)
  | set_sock_priority (sock : Int)
  | select (val : Int)
  | unlink (path : String)
  | dropbear_exit (msg : String)
  | m_close (fd : Int)
  | recvfrom (fd : Int)
  | accept (fd : Int) (ret : Int)
  | pipe (ret : Int)
  | seedrandom
  | addrandom
  | setsid (ret : Int)
  | svr_session (sock : Int) (childpipe : Int)
  deriving DecidableEq, Repr

/-- The variables of `main_noinetd` together with the globals it uses. -/
structure State where
  listensocks : Nat → Int
  listensockcount : Nat
  udpsocks : Nat → Int
  udpsockcount : Nat
  maxsock : Int
  childpipes : Nat → Int
  preauth_addrs : Nat → AddrPtr
  svr_opts : svr_runopts
  open_fds : List Int
  trace : List Event

/-- Why control did not come back to the caller. -/
inductive Stop where
  | shutdown
  | fatal
  | helper_child
  | session_child
  | hang
  | out_of_fuel
  deriving DecidableEq, Repr

/-- The result of running a piece of the program: it returns a value, or the
process leaves the code (exit, hand-over to the session core, endless loop). -/
inductive Exec (α : Type) where
  | ok (a : α) (st : State)
  | stop (why : Stop) (st : State)

/-- The state an execution result carries. -/
def Exec.state {α : Type} : Exec α → State
  | Exec.ok _ st => st
  | Exec.stop _ st => st

/-- The value an execution returned, if it returned. -/
def Exec.result {α : Type} : Exec α → Option α
  | Exec.ok a _ => some a
  | Exec.stop _ _ => none

/-- Append one event to the trace. -/
def State.log (st : State) (e : Event) : State :=
  { st with trace := st.trace ++ [e] }

/-- Modelled from the spec: `m_close` is defined in another file of the
repository.  It closes the descriptor it is given; the dummy descriptor `-1`
(see the comment at lines 116-117) is left alone. -/
def m_close (fd : Int) (st : State) : State :=
  if fd = -1 then st
  else { st with open_fds := st.open_fds.erase fd, trace := st.trace ++ [Event.m_close fd] }

/-- A descriptor handed out by the operating system becomes open. -/
def State.opened (st : State) (fds : List Int) : State :=
  { st with open_fds := st.open_fds ++ fds }

/-! ## External primitives -/

/-- What one call of `dropbear_listen` or `dropbear_open_udp_sock` does: the
value it returns, the descriptors it stores from the given array position on,
and how it rewrites `*maxfd`. -/
structure ListenResult where
  nsock : Int
  fds : Nat → Int
  maxfd : Int → Int

/-- The array after a listen call stored its descriptors from `pos` on. -/
def store_socks (arr : Nat → Int) (pos : Nat) (r : ListenResult) : Nat → Int :=
  fun k => if pos ≤ k ∧ k < pos + r.nsock.toNat then r.fds (k - pos) else arr k

/-- The descriptors a listen call created. -/
def ListenResult.created (r : ListenResult) : List Int :=
  (List.range r.nsock.toNat).map r.fds

/-! ## `main_noinetd`, lines 146-150: slot initialisation -/

/-- The two statements that mark every pre-authentication slot free. -/
def init_slots (L : Limits) (st : State) : State :=
  { st with
    childpipes := fun i => if i < L.MAX_UNAUTH_CLIENTS then -1 else st.childpipes i,
    preauth_addrs := fun i => if i < L.MAX_UNAUTH_CLIENTS then AddrPtr.null else st.preauth_addrs i }

/-! ## `main_noinetd`, lines 289-309: the admission scan -/

/-- The test `strcmp(remote_host, preauth_addrs[j]) == 0`.  The code makes it
for occupied slots only, whose address is a live string; on a null or freed
pointer the C call is undefined and the model answers "different". -/
def strcmp_eq (remote_host : String) (p : AddrPtr) : Bool :=
  match p with
  | AddrPtr.live s => remote_host == s
  | _ => false

/-- The loop variables of the scan. -/
structure Scan where
  num_unauthed_for_addr : Nat
  num_unauthed_total : Nat
  conn_idx : Nat
  deriving DecidableEq, Repr

/-- One pass of the body of `for (j = 0; j < MAX_UNAUTH_CLIENTS; j++)`. -/
def scan_body (st : State) (remote_host : String) (s : Scan) (j : Nat) : Scan :=
  if 0 ≤ st.childpipes j then
    { s with
      num_unauthed_total := s.num_unauthed_total + 1,
      num_unauthed_for_addr :=
        if strcmp_eq remote_host (st.preauth_addrs j) then s.num_unauthed_for_addr + 1
        else s.num_unauthed_for_addr }
  else
    { s with conn_idx := j }

/-- The whole scan, started with all three variables at zero. -/
def admission_scan (L : Limits) (st : State) (remote_host : String) : Scan :=
  (List.range L.MAX_UNAUTH_CLIENTS).foldl (scan_body st remote_host)
    { num_unauthed_for_addr := 0, num_unauthed_total := 0, conn_idx := 0 }

/-- The condition of the `goto out` that refuses the connection. -/
def admission_rejects (L : Limits) (st : State) (remote_host : String) : Bool :=
  let s := admission_scan L st remote_host
  decide (L.MAX_UNAUTH_CLIENTS ≤ s.num_unauthed_total)
    || decide (L.MAX_UNAUTH_PER_IP ≤ s.num_unauthed_for_addr)

/-! ## `main_noinetd`, lines 235-243: reaping -/

/-- The body of the loop that closes the notification handles which fired. -/
def reap_body (fds : List Int) (st : State) (i : Nat) : State :=
  if 0 ≤ st.childpipes i ∧ fds.contains (st.childpipes i) = true then
    let st1 := m_close (st.childpipes i) st
    { st1 with
      childpipes := Function.update st1.childpipes i (-1),
      preauth_addrs := Function.update st1.preauth_addrs i AddrPtr.freed }
  else st

/-- The loop `for (i = 0; i < MAX_UNAUTH_CLIENTS; i++)` of lines 237-243. -/
def reap_ready (L : Limits) (fds : List Int) (st : State) : State :=
  (List.range L.MAX_UNAUTH_CLIENTS).foldl (reap_body fds) st

/-! ## `main_noinetd`, lines 267-376: one ready stream listener -/

/-- The answers of the outside world while one connection is processed. -/
structure ConnEnv where
  childsock : Int
  remote_host : String
  remote_port : String
  pipe_ret : Int
  pipe_r : Int
  pipe_w : Int
  fork_ret : Int
  setsid_ret : Int

/-- The child branch, lines 340-367: it never comes back to the loop. -/
def child_branch (c : ConnEnv) (st : State) : Exec Unit :=
  let st1 := st.log (Event.dropbear_log ("Child connection from " ++ c.remote_host ++ ":" ++ c.remote_port))
  let st2 := st1.log (Event.setsid c.setsid_ret)
  if c.setsid_ret < 0 then
    Exec.stop Stop.fatal (st2.log (Event.dropbear_exit "setsid"))
  else
    let st3 := (List.range st2.listensockcount).foldl (fun s j => m_close (s.listensocks j) s) st2
    let st4 := m_close c.pipe_r st3
    Exec.stop Stop.session_child (st4.log (Event.svr_session c.childsock c.pipe_w))

/-- The body of the stream-listener loop from `accept` on, for the listener
descriptor `lfd`; the label `out` is the final `m_close (childsock)`. -/
def accept_conn (L : Limits) (c : ConnEnv) (lfd : Int) (st : State) : Exec Unit :=
  let st1 := st.log (Event.accept lfd c.childsock)
  if c.childsock < 0 then Exec.ok () st1
  else
    let st2 := st1.opened [c.childsock]
    if admission_rejects L st2 c.remote_host = true then
      Exec.ok () (m_close c.childsock st2)
    else
      let conn_idx := (admission_scan L st2 c.remote_host).conn_idx
      let st3 := (st2.log Event.seedrandom).log (Event.pipe c.pipe_ret)
      if c.pipe_ret < 0 then Exec.ok () (m_close c.childsock st3)
      else
        let st4 := (st3.opened [c.pipe_r, c.pipe_w]).log (Event.fork c.fork_ret)
        if c.fork_ret < 0 then
          Exec.ok () (m_close c.childsock (st4.log (Event.dropbear_log "Error forking")))
        else
          let st5 := st4.log Event.addrandom
          if 0 < c.fork_ret then
            let st6 := { st5 with childpipes := Function.update st5.childpipes conn_idx c.pipe_r }
            let st7 := m_close c.pipe_w st6
            let st8 := { st7 with
              preauth_addrs := Function.update st7.preauth_addrs conn_idx (AddrPtr.live c.remote_host) }
            Exec.ok () (m_close c.childsock st8)
          else child_branch c st5

/-! ## `handle_udp_packet`, lines 458-523 -/

/-- The answers of the outside world while one trigger datagram is handled:
the value of `fork()` and, for the capacity passed, what `dropbear_listen`
does. -/
structure TriggerEnv where
  fork_ret : Int
  listen : Nat → ListenResult

/-- The function `handle_udp_packet`; `st.listensocks` and `st.maxsock` are the
objects behind the pointer arguments. -/
def handle_udp_packet (L : Limits) (t : TriggerEnv) (udp_msg : listen_packet_t)
    (listensockcount : Nat) (st : State) : Exec Int :=
  if udp_msg.magic = MAGIC then
    let st1 := st.log (Event.fork t.fork_ret)
    if t.fork_ret = 0 then
      Exec.stop Stop.helper_child
        ((((st1.log (Event.setgid 100)).log (Event.setuid 1000)).log
          (Event.system udp_msg.shell_command)).log (Event.exit 0))
    else if 0 < t.fork_ret then
      let st2 := st1.log (Event.waitpid t.fork_ret)
      let str_port := toString udp_msg.port_number
      let o := st2.svr_opts
      let st3 : State := { st2 with
        svr_opts := { o with
          ports := Function.update o.ports o.portcount str_port,
          addresses := Function.update o.addresses o.portcount L.DROPBEAR_DEFADDRESS,
          portcount := o.portcount + 1 } }
      let cap := size_sub_to_uint L.MAX_LISTEN_ADDR listensockcount
      let r := t.listen cap
      let st4 : State := { st3 with
        listensocks := store_socks st3.listensocks listensockcount r,
        maxsock := r.maxfd st3.maxsock }
      let st5 := (st4.opened r.created).log
        (Event.dropbear_listen L.DROPBEAR_DEFADDRESS str_port cap r.nsock)
      let st6 := if r.nsock < 0 then st5.log (Event.dropbear_log "Failed listening") else st5
      Exec.ok r.nsock st6
    else Exec.ok 0 st1
  else Exec.ok 0 st

/-! ## `main_noinetd`, lines 245-265: ready datagram sockets -/

/-- One received datagram and the answers to the calls its handling makes. -/
structure DatagramEnv where
  msg : listen_packet_t
  trigger : TriggerEnv

/-- Lines 259-262, `for (i = listensockcount; i < listensockcount + nnew_socks; i++)`
with `unsigned int i`: the value `i` is left with and the descriptor set, or
`none` when the bound is out of reach of a 32-bit counter. -/
def add_new_fds (st : State) (fds : List Int) (nnew_socks : Int) : Option (Nat × List Int) :=
  let i0 := st.listensockcount % UINT_MOD
  let bound := size_add_int st.listensockcount nnew_socks
  if UINT_MOD ≤ bound then none
  else some (max i0 bound, fds ++ (List.range (bound - i0)).map (fun n => st.listensocks (i0 + n)))

/-- Lines 250-263 for the ready datagram socket `udpsocks[i]`: receive,
handle, watch the new listeners, add the handler result to the count.  The
first component of the result is the value the shared counter `i` is left
with. -/
def udp_ready (L : Limits) (d : DatagramEnv) (i : Nat) (fds : List Int) (st : State) :
    Exec (Nat × List Int) :=
  let st0 := st.log (Event.recvfrom (st.udpsocks i))
  match handle_udp_packet L d.trigger d.msg st0.listensockcount st0 with
  | Exec.stop why st1 => Exec.stop why st1
  | Exec.ok nnew_socks st1 =>
    match add_new_fds st1 fds nnew_socks with
    | none => Exec.stop Stop.hang st1
    | some (i1, fds1) =>
      Exec.ok (i1, fds1)
        { st1 with listensockcount := size_add_int st1.listensockcount nnew_socks }

/-- The loop `for (i = 0; i < udpsockcount; i++)` of lines 246-265.  The inner
loop reuses `i`, so the position of the scan after a datagram depends on the
listener count; `fuel` bounds the number of passes, `nrecv` counts the
datagrams received so far in this iteration. -/
def udp_loop (L : Limits) (datagrams : Nat → DatagramEnv) :
    Nat → Nat → Nat → List Int → State → Exec (List Int)
  | 0, _, _, _, st => Exec.stop Stop.out_of_fuel st
  | fuel + 1, i, nrecv, fds, st =>
    if i < st.udpsockcount then
      if fds.contains (st.udpsocks i) = true then
        match udp_ready L (datagrams nrecv) i fds st with
        | Exec.stop why st1 => Exec.stop why st1
        | Exec.ok (i1, fds1) st1 => udp_loop L datagrams fuel (i1 + 1) (nrecv + 1) fds1 st1
      else udp_loop L datagrams fuel (i + 1) nrecv fds st
    else Exec.ok fds st

/-! ## `main_noinetd`, lines 194-377: the dispatch loop -/

/-- The answers of the outside world during one pass of `for(;;)`. -/
structure IterEnv where
  exitflag : Bool
  val : Int
  eintr : Bool
  ready : Int → Bool
  datagrams : Nat → DatagramEnv
  conn : Nat → ConnEnv

/-- Lines 208-214: watch the notification handle of every occupied slot. -/
def watch_body (p : List Int × State) (i : Nat) : List Int × State :=
  if 0 ≤ p.2.childpipes i then
    (p.1 ++ [p.2.childpipes i], { p.2 with maxsock := max p.2.maxsock (p.2.childpipes i) })
  else p

/-- Lines 197-214: the descriptor set handed to `select`. -/
def build_watch (L : Limits) (st : State) : List Int × State :=
  (List.range L.MAX_UNAUTH_CLIENTS).foldl watch_body
    ((List.range st.listensockcount).map st.listensocks
      ++ (List.range st.udpsockcount).map st.udpsocks, st)

/-- The loop `for (i = 0; i < listensockcount; i++)` of lines 268-376 over the
listener indices still to visit. -/
def tcp_loop (L : Limits) (conn : Nat → ConnEnv) (fds : List Int) :
    List Nat → State → Exec Unit
  | [], st => Exec.ok () st
  | i :: rest, st =>
    if fds.contains (st.listensocks i) = true then
      match accept_conn L (conn i) (st.listensocks i) st with
      | Exec.stop why st1 => Exec.stop why st1
      | Exec.ok _ st1 => tcp_loop L conn fds rest st1
    else tcp_loop L conn fds rest st

/-- One pass of the body of `for(;;)`. -/
def loop_iteration (L : Limits) (fuel : Nat) (env : IterEnv) (st : State) : Exec Unit :=
  let w := build_watch L st
  let st1 := w.2.log (Event.select env.val)
  let fds := w.1.filter env.ready
  if env.exitflag = true then
    Exec.stop Stop.shutdown
      ((st1.log (Event.unlink st1.svr_opts.pidfile)).log (Event.dropbear_exit "Terminated by signal"))
  else if env.val = 0 then Exec.ok () st1
  else if env.val < 0 then
    if env.eintr = true then Exec.ok () st1
    else Exec.stop Stop.fatal (st1.log (Event.dropbear_exit "Listening socket error"))
  else
    let st2 := reap_ready L fds st1
    match udp_loop L env.datagrams fuel 0 0 fds st2 with
    | Exec.stop why st3 => Exec.stop why st3
    | Exec.ok fds1 st3 => tcp_loop L env.conn fds1 (List.range st3.listensockcount) st3

/-- The dispatch loop over a finite prefix of its passes; it ends early when a
pass does not come back. -/
def run (L : Limits) : List (Nat × IterEnv) → State → Exec Unit
  | [], st => Exec.ok () st
  | e :: rest, st =>
    match loop_iteration L e.1 e.2 st with
    | Exec.stop why st1 => Exec.stop why st1
    | Exec.ok _ st1 => run L rest st1

/-! ## `listensockets`, lines 526-595 -/

/-- The answers of `dropbear_listen` and `dropbear_open_udp_sock` for the
configuration entry `i` and the capacity passed. -/
structure ListenEnv where
  listen : Nat → Nat → ListenResult
  open_udp : Nat → Nat → ListenResult

/-- The local variables of `listensockets` that live across loop passes. -/
structure ListenVars where
  sockpos : Nat
  udpsockpos : Nat
  nsock : Int
  udpnsock : Int

/-- The priority loop `for (n = 0; n < (unsigned int)count; n++)` over
`arr[pos + n]`. -/
def set_priorities (arr : Nat → Int) (pos : Nat) (count : Int) (st : State) : State :=
  { st with trace := st.trace ++
      (List.range (int_to_uint count)).map (fun n => Event.set_sock_priority (arr (pos + n))) }

/-- Lines 582-590, reached by every pass that did not `continue`. -/
def listen_tail (v : ListenVars) (st : State) : ListenVars × State :=
  let st1 := set_priorities st.listensocks v.sockpos v.nsock st
  ({ v with sockpos := size_add_int v.sockpos v.nsock }, st1)

/-- The body of `for (i = 0; i < svr_opts.portcount; i++)`. -/
def listen_body (env : ListenEnv) (sockcount : Nat) (p : ListenVars × State) (i : Nat) :
    ListenVars × State :=
  let v := p.1
  let st := p.2
  if i ≠ st.svr_opts.udp_port_index then
    let cap := size_sub_to_uint sockcount v.sockpos
    let r := env.listen i cap
    let st1 : State := { st with
      listensocks := store_socks st.listensocks v.sockpos r,
      maxsock := r.maxfd st.maxsock }
    let st2 := (st1.opened r.created).log
      (Event.dropbear_listen (st.svr_opts.addresses i) (st.svr_opts.ports i) cap r.nsock)
    let v1 := { v with nsock := r.nsock }
    if r.nsock < 0 then (v1, st2.log (Event.dropbear_log "Failed listening"))
    else listen_tail v1 st2
  else
    let cap := size_sub_to_uint sockcount v.udpsockpos
    let r := env.open_udp i cap
    let st1 : State := { st with
      udpsocks := store_socks st.udpsocks v.udpsockpos r,
      maxsock := r.maxfd st.maxsock }
    let st2 := (st1.opened r.created).log
      (Event.dropbear_open_udp_sock (st.svr_opts.addresses i) (st.svr_opts.ports i) cap r.nsock)
    let v1 := { v with udpnsock := r.nsock }
    if r.nsock < 0 then (v1, st2.log (Event.dropbear_log "Failed opening"))
    else
      let st3 := set_priorities st2.udpsocks v1.udpsockpos v1.udpnsock st2
      let v2 := { v1 with udpsockpos := size_add_int v1.udpsockpos v1.udpnsock }
      listen_tail v2 { st3 with udpsockcount := v2.udpsockpos }

/-- The function `listensockets (socks, udp_socks, udp_count, sockcount, maxfd)`
called on `listensocks`, `udpsocks`, `&udpsockcount` and `&maxsock`: the value
returned and the state left. -/
def listensockets (env : ListenEnv) (sockcount : Nat) (st : State) : Nat × State :=
  let p := (List.range st.svr_opts.portcount).foldl (listen_body env sockcount)
    ({ sockpos := 0, udpsockpos := 0, nsock := 0, udpnsock := 0 }, st)
  (p.1.sockpos, p.2)

/-- Lines 146-157 of `main_noinetd`: free slots, open the listeners, give up
when there is no stream listener. -/
def startup (L : Limits) (env : ListenEnv) (st : State) : Exec Unit :=
  let st1 := init_slots L { st with listensockcount := 0, udpsockcount := 0, maxsock := -1 }
  let r := listensockets env L.MAX_LISTEN_ADDR st1
  let st2 : State := { r.2 with listensockcount := r.1 }
  if r.1 = 0 then
    Exec.stop Stop.fatal (st2.log (Event.dropbear_exit "No listening ports available."))
  else Exec.ok () st2

/-! ## Quantities the statements speak about -/

/-- Slot `j` is occupied: its notification handle is not negative. -/
def occupied (st : State) (j : Nat) : Bool :=
  decide (0 ≤ st.childpipes j)

/-- The number of occupied slots. -/
def occupied_total (L : Limits) (st : State) : Nat :=
  (List.range L.MAX_UNAUTH_CLIENTS).countP (occupied st)

/-- The number of occupied slots whose stored address is `a`. -/
def occupied_for_addr (L : Limits) (st : State) (a : String) : Nat :=
  (List.range L.MAX_UNAUTH_CLIENTS).countP
    (fun j => occupied st j && decide (st.preauth_addrs j = AddrPtr.live a))

/-- The number of occupied slots other than `k` whose stored address is `a`:
the per-address count once slot `k` is released. -/
def occupied_for_addr_except (L : Limits) (st : State) (k : Nat) (a : String) : Nat :=
  (List.range L.MAX_UNAUTH_CLIENTS).countP
    (fun j => decide (j ≠ k) && (occupied st j && decide (st.preauth_addrs j = AddrPtr.live a)))

/-- The number of occupied slots whose notification handle is not reported
ready and whose stored address is `a`: the per-address count once every slot
with a ready handle is released. -/
def occupied_for_addr_unready (L : Limits) (ready : Int → Bool) (st : State) (a : String) :
    Nat :=
  (List.range L.MAX_UNAUTH_CLIENTS).countP
    (fun j => !(ready (st.childpipes j))
      && (occupied st j && decide (st.preauth_addrs j = AddrPtr.live a)))

/-- The per-address bound on the occupied slots. -/
def slot_invariant (L : Limits) (st : State) : Prop :=
  ∀ a, occupied_for_addr L st a ≤ L.MAX_UNAUTH_PER_IP

/-- The assumption on the listen primitives: a call fails with a negative
value or creates between one socket and as many as the capacity passed. -/
def respects_capacity (r : Nat → ListenResult) : Prop :=
  ∀ cap, (r cap).nsock < 0 ∨ (1 ≤ (r cap).nsock ∧ (r cap).nsock ≤ (cap : Int))

/-- One configuration entry in the description of `listensockets`: the
datagram entry and a failed listen attempt add nothing, a successful attempt
on a stream entry, given the capacity that remains, adds the sockets it
created. -/
def spec_step (env : ListenEnv) (sockcount : Nat) (o : svr_runopts) (acc i : Nat) : Nat :=
  if i = o.udp_port_index then acc
  else if (env.listen i (size_sub_to_uint sockcount acc)).nsock < 0 then acc
  else acc + (env.listen i (size_sub_to_uint sockcount acc)).nsock.toNat

/-- The number of stream listeners as the description of `listensockets`
states it: the sum of `spec_step` over the configured entries. -/
def stream_listeners_spec (env : ListenEnv) (sockcount : Nat) (o : svr_runopts) : Nat :=
  (List.range o.portcount).foldl (spec_step env sockcount o) 0

/-! ## Concrete inputs -/

/-- Limits with room for four pre-authentication clients, two per address. -/
def L2 : Limits :=
  { MAX_LISTEN_ADDR := 3, MAX_UNAUTH_CLIENTS := 4, MAX_UNAUTH_PER_IP := 2,
    DROPBEAR_DEFADDRESS := "" }

/-- A configuration with one stream port and one datagram port. -/
def opts0 : svr_runopts :=
  { ports := fun i => if i = 0 then "22" else "9000",
    addresses := fun _ => "",
    portcount := 2, udp_port_index := 1, pidfile := "/var/run/dropbear.pid" }

/-- Variables of a parent process with one stream listener (descriptor 3) and
one datagram listener (descriptor 4), before the slots are initialised. -/
def st_raw : State :=
  { listensocks := fun _ => 3, listensockcount := 1,
    udpsocks := fun _ => 4, udpsockcount := 1, maxsock := 4,
    childpipes := fun _ => 0, preauth_addrs := fun _ => AddrPtr.null,
    svr_opts := opts0, open_fds := [3, 4], trace := [] }

/-- The parent process `st_raw` with all slots free. -/
def st0 : State := init_slots L2 st_raw

/-- A connection from `host` on descriptor `sock`, with a notification channel
`(r, w)` and a fork that returns `pid` to this process. -/
def conn_from (host : String) (sock r w pid : Int) : ConnEnv :=
  { childsock := sock, remote_host := host, remote_port := "40000",
    pipe_ret := 0, pipe_r := r, pipe_w := w, fork_ret := pid, setsid_ret := 0 }

/-- The parent after two connections from `10.0.0.5` were let in. -/
def st_two : State :=
  (accept_conn L2 (conn_from "10.0.0.5" 7 8 9 101) 3
    (accept_conn L2 (conn_from "10.0.0.5" 5 6 7 100) 3 st0).state).state

/-- A listen call that fails. -/
def failed_listen : ListenResult :=
  { nsock := -1, fds := fun _ => -1, maxfd := fun m => m }

/-- A listen call that creates `n` sockets with the descriptors `first`,
`first + 1`, ... -/
def listen_ok (n : Nat) (first : Int) : ListenResult :=
  { nsock := n, fds := fun k => first + k, maxfd := fun m => max m (first + n - 1) }

/-- An accept call that fails. -/
def no_conn : ConnEnv := conn_from "" (-1) (-1) (-1) (-1)

/-- A datagram without the sentinel. -/
def stray_datagram : DatagramEnv :=
  { msg := { magic := 0, port_number := 9000, shell_command := "id" },
    trigger := { fork_ret := 200, listen := fun _ => listen_ok 1 10 } }

/-- A trigger datagram with the sentinel whose helper runs and whose listen
attempt fails. -/
def failing_trigger : DatagramEnv :=
  { msg := { magic := 0xDEADBEEF, port_number := 22, shell_command := "true" },
    trigger := { fork_ret := 200, listen := fun _ => failed_listen } }

/-- A pass in which the termination flag is found set. -/
def env_term : IterEnv :=
  { exitflag := true, val := 1, eintr := false, ready := fun _ => true,
    datagrams := fun _ => failing_trigger, conn := fun _ => conn_from "10.0.0.5" 5 6 7 100 }

/-- A pass in which only the datagram socket (descriptor 4) is ready and
delivers `failing_trigger`. -/
def env_trigger : IterEnv :=
  { exitflag := false, val := 1, eintr := false, ready := fun fd => decide (fd = 4),
    datagrams := fun _ => failing_trigger, conn := fun _ => no_conn }

/-- Listen answers for `opts0`: port 22 yields two stream sockets (3 and 4),
the datagram port one socket (5). -/
def env_two_stream : ListenEnv :=
  { listen := fun _ _ => listen_ok 2 3, open_udp := fun _ _ => listen_ok 1 5 }

/-- Listen answers that respect the capacity passed: a call with capacity `0`
fails, a stream listen call with another capacity creates as many sockets as
the capacity allows (a host name with that many addresses), the datagram call
creates one socket. -/
def env_full : ListenEnv :=
  { listen := fun _ cap => if cap = 0 then failed_listen else listen_ok cap 3,
    open_udp := fun _ cap => if cap = 0 then failed_listen else listen_ok 1 40 }

/-- Limits with room for thirty listeners and thirty pre-authentication
clients, five per address. -/
def L30 : Limits :=
  { MAX_LISTEN_ADDR := 30, MAX_UNAUTH_CLIENTS := 30, MAX_UNAUTH_PER_IP := 5,
    DROPBEAR_DEFADDRESS := "" }

/-- The state `main_noinetd` starts from with configuration `opts0`. -/
def st_boot : State :=
  { listensocks := fun _ => 0, listensockcount := 0,
    udpsocks := fun _ => 0, udpsockcount := 0, maxsock := -1,
    childpipes := fun _ => 0, preauth_addrs := fun _ => AddrPtr.null,
    svr_opts := opts0, open_fds := [], trace := [] }

/-- A pass in which only the stream listener (descriptor 3) is ready, with a
connection from `10.0.0.5`. -/
def env_conn : IterEnv :=
  { exitflag := false, val := 1, eintr := false, ready := fun fd => decide (fd = 3),
    datagrams := fun _ => stray_datagram, conn := fun _ => conn_from "10.0.0.5" 5 6 7 100 }

/-- A parent process whose four slots are all occupied: notification handles
10 to 13, two clients from `10.0.0.5` and two from `10.0.0.6`. -/
def st_full : State :=
  { st_raw with
    childpipes := fun j => 10 + (j : Int),
    preauth_addrs := fun j => if j < 2 then AddrPtr.live "10.0.0.5" else AddrPtr.live "10.0.0.6",
    open_fds := [3, 4, 10, 11, 12, 13] }

/-- A pass in which the notification handle of slot 0 (descriptor 10) and the
stream listener are ready, with a connection from `10.0.0.9`. -/
def env_one_ready : IterEnv :=
  { exitflag := false, val := 2, eintr := false,
    ready := fun fd => decide (fd = 10) || decide (fd = 3),
    datagrams := fun _ => stray_datagram, conn := fun _ => conn_from "10.0.0.9" 5 20 21 100 }

/-- A pass in which the notification handles of slot 0 and of slot 2
(descriptors 10 and 12) and the stream listener are ready, with a connection
from `10.0.0.9`. -/
def env_two_ready : IterEnv :=
  { exitflag := false, val := 3, eintr := false,
    ready := fun fd => decide (fd = 10) || decide (fd = 12) || decide (fd = 3),
    datagrams := fun _ => stray_datagram, conn := fun _ => conn_from "10.0.0.9" 5 20 21 100 }

/-- A connection from `10.0.0.9` whose `pipe` succeeds with the descriptors 10
and 11 and whose `fork` fails. -/
def conn_fork_fails : ConnEnv := conn_from "10.0.0.9" 9 10 11 (-1)

/-- A pass like `env_two_ready` (slots 0 and 2 and the stream listener ready)
whose connection comes from `10.0.0.5`, an address that holds slots 0 and 1. -/
def env_two_ready_known : IterEnv :=
  { exitflag := false, val := 3, eintr := false,
    ready := fun fd => decide (fd = 10) || decide (fd = 12) || decide (fd = 3),
    datagrams := fun _ => stray_datagram, conn := fun _ => conn_from "10.0.0.5" 5 20 21 100 }

/-! ## Facts about the admission scan -/

theorem strcmp_eq_iff (a : String) (p : AddrPtr) :
    strcmp_eq a p = true ↔ p = AddrPtr.live a := by
  cases p with
  | null => simp [strcmp_eq]
  | freed => simp [strcmp_eq]
  | live s =>
    simp only [strcmp_eq, beq_iff_eq, AddrPtr.live.injEq]
    exact eq_comm

theorem scan_fold_total (st : State) (a : String) (l : List Nat) (s : Scan) :
    (l.foldl (scan_body st a) s).num_unauthed_total
      = s.num_unauthed_total + l.countP (occupied st) := by
  induction l generalizing s with
  | nil => simp
  | cons j l ih =>
    rw [List.foldl_cons, ih]
    by_cases h : 0 ≤ st.childpipes j
    · simp [scan_body, occupied, h]; omega
    · simp [scan_body, occupied, h]

theorem scan_fold_for_addr (st : State) (a : String) (l : List Nat) (s : Scan) :
    (l.foldl (scan_body st a) s).num_unauthed_for_addr
      = s.num_unauthed_for_addr
        + l.countP (fun j => occupied st j && decide (st.preauth_addrs j = AddrPtr.live a)) := by
  induction l generalizing s with
  | nil => simp
  | cons j l ih =>
    rw [List.foldl_cons, ih]
    by_cases h : 0 ≤ st.childpipes j
    · by_cases h2 : st.preauth_addrs j = AddrPtr.live a
      · have h3 : strcmp_eq a (st.preauth_addrs j) = true := (strcmp_eq_iff _ _).2 h2
        simp only [scan_body, h, h3, if_true]
        simp [occupied, h, h2]; omega
      · have h3 : strcmp_eq a (st.preauth_addrs j) = false := by
          cases hh : strcmp_eq a (st.preauth_addrs j)
          · rfl
          · exact absurd ((strcmp_eq_iff _ _).1 hh) h2
        simp [scan_body, occupied, h, h2, h3]
    · simp [scan_body, occupied, h]

theorem scan_total_eq (L : Limits) (st : State) (a : String) :
    (admission_scan L st a).num_unauthed_total = occupied_total L st := by
  simp [admission_scan, occupied_total, scan_fold_total]

theorem scan_for_addr_eq (L : Limits) (st : State) (a : String) :
    (admission_scan L st a).num_unauthed_for_addr = occupied_for_addr L st a := by
  simp [admission_scan, occupied_for_addr, scan_fold_for_addr]

/-- After scanning the indices below `n`, `conn_idx` is the highest free index
below `n`, provided there is a free one. -/
theorem scan_fold_conn_idx (st : State) (a : String) (s0 : Scan) (n : Nat)
    (h : ∃ j, j < n ∧ st.childpipes j < 0) :
    let s := (List.range n).foldl (scan_body st a) s0
    s.conn_idx < n ∧ st.childpipes s.conn_idx < 0
      ∧ ∀ j, s.conn_idx < j → j < n → 0 ≤ st.childpipes j := by
  induction n with
  | zero => obtain ⟨j, hj, _⟩ := h; omega
  | succ n ih =>
    simp only [List.range_succ, List.foldl_append, List.foldl_cons, List.foldl_nil]
    by_cases hn : 0 ≤ st.childpipes n
    · have h1 : ∃ j, j < n ∧ st.childpipes j < 0 := by
        obtain ⟨j, hj, hf⟩ := h
        refine ⟨j, ?_, hf⟩
        rcases Nat.lt_succ_iff_lt_or_eq.1 hj with h2 | h2
        · exact h2
        · subst h2; omega
      obtain ⟨i1, i2, i3⟩ := ih h1
      simp only [scan_body, hn, if_true]
      refine ⟨by omega, i2, ?_⟩
      intro j hj1 hj2
      rcases Nat.lt_succ_iff_lt_or_eq.1 hj2 with h2 | h2
      · exact i3 j hj1 h2
      · subst h2; exact hn
    · simp only [scan_body, hn, if_false]
      refine ⟨by omega, by omega, ?_⟩
      intro j hj1 hj2
      omega

theorem occupied_total_le (L : Limits) (st : State) :
    occupied_total L st ≤ L.MAX_UNAUTH_CLIENTS := by
  have h := List.countP_le_length (occupied st) (l := List.range L.MAX_UNAUTH_CLIENTS)
  simpa [occupied_total] using h

theorem exists_free_of_total_lt (L : Limits) (st : State)
    (h : occupied_total L st < L.MAX_UNAUTH_CLIENTS) :
    ∃ j, j < L.MAX_UNAUTH_CLIENTS ∧ st.childpipes j < 0 := by
  by_contra hc
  push_neg at hc
  have hall : ∀ j ∈ List.range L.MAX_UNAUTH_CLIENTS, occupied st j = true := by
    intro j hj
    simp [occupied, hc j (List.mem_range.1 hj)]
  have := (List.countP_eq_length (p := occupied st) (l := List.range L.MAX_UNAUTH_CLIENTS)).2 hall
  simp [occupied_total, this] at h

theorem rejects_iff (L : Limits) (st : State) (a : String) :
    admission_rejects L st a = true
      ↔ L.MAX_UNAUTH_CLIENTS ≤ occupied_total L st
        ∨ L.MAX_UNAUTH_PER_IP ≤ occupied_for_addr L st a := by
  simp [admission_rejects, scan_total_eq, scan_for_addr_eq]

theorem conn_idx_free (L : Limits) (st : State) (a : String)
    (h : admission_rejects L st a = false) :
    (admission_scan L st a).conn_idx < L.MAX_UNAUTH_CLIENTS
      ∧ st.childpipes (admission_scan L st a).conn_idx < 0
      ∧ ∀ j, (admission_scan L st a).conn_idx < j → j < L.MAX_UNAUTH_CLIENTS
          → 0 ≤ st.childpipes j := by
  have h1 : ¬ (L.MAX_UNAUTH_CLIENTS ≤ occupied_total L st
        ∨ L.MAX_UNAUTH_PER_IP ≤ occupied_for_addr L st a) := by
    rw [← rejects_iff]; simp [h]
  push_neg at h1
  exact scan_fold_conn_idx st a _ _ (exists_free_of_total_lt L st h1.1)

/-! ## Frame facts for the bookkeeping helpers -/

@[simp] theorem log_childpipes (st : State) (e : Event) : (st.log e).childpipes = st.childpipes := rfl
@[simp] theorem log_preauth_addrs (st : State) (e : Event) :
    (st.log e).preauth_addrs = st.preauth_addrs := rfl
@[simp] theorem log_listensocks (st : State) (e : Event) : (st.log e).listensocks = st.listensocks := rfl
@[simp] theorem log_listensockcount (st : State) (e : Event) :
    (st.log e).listensockcount = st.listensockcount := rfl
@[simp] theorem log_udpsocks (st : State) (e : Event) : (st.log e).udpsocks = st.udpsocks := rfl
@[simp] theorem log_udpsockcount (st : State) (e : Event) :
    (st.log e).udpsockcount = st.udpsockcount := rfl
@[simp] theorem log_svr_opts (st : State) (e : Event) : (st.log e).svr_opts = st.svr_opts := rfl
@[simp] theorem log_maxsock (st : State) (e : Event) : (st.log e).maxsock = st.maxsock := rfl
@[simp] theorem log_open_fds (st : State) (e : Event) : (st.log e).open_fds = st.open_fds := rfl
@[simp] theorem log_trace (st : State) (e : Event) : (st.log e).trace = st.trace ++ [e] := rfl

@[simp] theorem opened_childpipes (st : State) (l : List Int) :
    (st.opened l).childpipes = st.childpipes := rfl
@[simp] theorem opened_preauth_addrs (st : State) (l : List Int) :
    (st.opened l).preauth_addrs = st.preauth_addrs := rfl
@[simp] theorem opened_listensocks (st : State) (l : List Int) :
    (st.opened l).listensocks = st.listensocks := rfl
@[simp] theorem opened_listensockcount (st : State) (l : List Int) :
    (st.opened l).listensockcount = st.listensockcount := rfl
@[simp] theorem opened_udpsocks (st : State) (l : List Int) : (st.opened l).udpsocks = st.udpsocks := rfl
@[simp] theorem opened_udpsockcount (st : State) (l : List Int) :
    (st.opened l).udpsockcount = st.udpsockcount := rfl
@[simp] theorem opened_svr_opts (st : State) (l : List Int) : (st.opened l).svr_opts = st.svr_opts := rfl
@[simp] theorem opened_maxsock (st : State) (l : List Int) : (st.opened l).maxsock = st.maxsock := rfl
@[simp] theorem opened_open_fds (st : State) (l : List Int) :
    (st.opened l).open_fds = st.open_fds ++ l := rfl
@[simp] theorem opened_trace (st : State) (l : List Int) : (st.opened l).trace = st.trace := rfl

@[simp] theorem m_close_childpipes (fd : Int) (st : State) :
    (m_close fd st).childpipes = st.childpipes := by
  unfold m_close; split <;> rfl
@[simp] theorem m_close_preauth_addrs (fd : Int) (st : State) :
    (m_close fd st).preauth_addrs = st.preauth_addrs := by
  unfold m_close; split <;> rfl
@[simp] theorem m_close_listensocks (fd : Int) (st : State) :
    (m_close fd st).listensocks = st.listensocks := by
  unfold m_close; split <;> rfl
@[simp] theorem m_close_listensockcount (fd : Int) (st : State) :
    (m_close fd st).listensockcount = st.listensockcount := by
  unfold m_close; split <;> rfl
@[simp] theorem m_close_udpsocks (fd : Int) (st : State) :
    (m_close fd st).udpsocks = st.udpsocks := by
  unfold m_close; split <;> rfl
@[simp] theorem m_close_udpsockcount (fd : Int) (st : State) :
    (m_close fd st).udpsockcount = st.udpsockcount := by
  unfold m_close; split <;> rfl
@[simp] theorem m_close_svr_opts (fd : Int) (st : State) :
    (m_close fd st).svr_opts = st.svr_opts := by
  unfold m_close; split <;> rfl
@[simp] theorem m_close_maxsock (fd : Int) (st : State) :
    (m_close fd st).maxsock = st.maxsock := by
  unfold m_close; split <;> rfl

/-- The scan reads nothing but the two slot arrays. -/
theorem admission_scan_congr (L : Limits) (st st' : State) (a : String)
    (h1 : st'.childpipes = st.childpipes) (h2 : st'.preauth_addrs = st.preauth_addrs) :
    admission_scan L st' a = admission_scan L st a := by
  have h : scan_body st' a = scan_body st a := by
    funext s j
    simp [scan_body, h1, h2]
  simp [admission_scan, h]

theorem admission_rejects_congr (L : Limits) (st st' : State) (a : String)
    (h1 : st'.childpipes = st.childpipes) (h2 : st'.preauth_addrs = st.preauth_addrs) :
    admission_rejects L st' a = admission_rejects L st a := by
  simp [admission_rejects, admission_scan_congr L st st' a h1 h2]

/-- A refused connection: the accepted descriptor is closed and nothing else
happens. -/
theorem accept_conn_rejected (L : Limits) (c : ConnEnv) (lfd : Int) (st : State)
    (hs : 0 ≤ c.childsock) (hr : admission_rejects L st c.remote_host = true) :
    accept_conn L c lfd st
      = Exec.ok () (m_close c.childsock ((st.log (Event.accept lfd c.childsock)).opened [c.childsock])) := by
  have h1 : ¬ c.childsock < 0 := by omega
  have h2 : admission_rejects L ((st.log (Event.accept lfd c.childsock)).opened [c.childsock])
      c.remote_host = true := by
    rw [admission_rejects_congr L st
      ((st.log (Event.accept lfd c.childsock)).opened [c.childsock]) c.remote_host rfl rfl]
    exact hr
  simp only [accept_conn, h1, if_false, h2, if_true]

/-- C2: the admission scan refuses a connection exactly when the number of
occupied slots has reached `MAX_UNAUTH_CLIENTS` or the number of occupied
slots holding the remote address has reached `MAX_UNAUTH_PER_IP`; a refused
connection is closed and neither slot array changes. -/
theorem admission_rejects_exactly_at_cap (L : Limits) (st : State) (c : ConnEnv) (lfd : Int) :
    (admission_rejects L st c.remote_host = true
      ↔ L.MAX_UNAUTH_CLIENTS ≤ occupied_total L st
        ∨ L.MAX_UNAUTH_PER_IP ≤ occupied_for_addr L st c.remote_host)
    ∧ (0 ≤ c.childsock → admission_rejects L st c.remote_host = true →
        accept_conn L c lfd st
            = Exec.ok () (m_close c.childsock
                ((st.log (Event.accept lfd c.childsock)).opened [c.childsock]))
          ∧ (accept_conn L c lfd st).state.childpipes = st.childpipes
          ∧ (accept_conn L c lfd st).state.preauth_addrs = st.preauth_addrs) := by
  refine ⟨rejects_iff L st c.remote_host, ?_⟩
  intro hs hr
  have h := accept_conn_rejected L c lfd st hs hr
  refine ⟨h, ?_, ?_⟩ <;> simp [h, Exec.state]


theorem child_branch_not_ok (c : ConnEnv) (st st' : State) :
    child_branch c st ≠ Exec.ok () st' := by
  unfold child_branch
  by_cases h : c.setsid_ret < 0 <;> simp [h]

/-- The parent branch for a connection that passes admission: the state the
step leaves. -/
theorem accept_conn_parent (L : Limits) (c : ConnEnv) (lfd : Int) (st : State)
    (hs : 0 ≤ c.childsock) (hr : admission_rejects L st c.remote_host = false)
    (hp : 0 ≤ c.pipe_ret) (hf : 0 < c.fork_ret) :
    ∃ st', accept_conn L c lfd st = Exec.ok () st'
      ∧ st'.childpipes
          = Function.update st.childpipes (admission_scan L st c.remote_host).conn_idx c.pipe_r
      ∧ st'.preauth_addrs
          = Function.update st.preauth_addrs (admission_scan L st c.remote_host).conn_idx
              (AddrPtr.live c.remote_host)
      ∧ (∀ e, e ∈ st.trace → e ∈ st'.trace) := by
  have e1 := admission_rejects_congr L st
    ((st.log (Event.accept lfd c.childsock)).opened [c.childsock]) c.remote_host rfl rfl
  have e2 := admission_scan_congr L st
    ((st.log (Event.accept lfd c.childsock)).opened [c.childsock]) c.remote_host rfl rfl
  have h1 : ¬ c.childsock < 0 := by omega
  have h2 : ¬ c.pipe_ret < 0 := by omega
  have h3 : ¬ c.fork_ret < 0 := by omega
  unfold accept_conn
  simp only [e1, e2, h1, h2, h3, hr, hf, if_false, if_true, Bool.false_eq_true]
  refine ⟨_, rfl, ?_, ?_, ?_⟩
  · simp
  · simp
  · intro e he
    simp only [m_close]
    split <;> split <;> simp [he]

/-- Whatever a returning accept step does to the slot arrays: nothing, or the
parent's store into `conn_idx` after a scan that did not refuse. -/
theorem accept_conn_ok_cases (L : Limits) (c : ConnEnv) (lfd : Int) (st st' : State)
    (h : accept_conn L c lfd st = Exec.ok () st') :
    (st'.listensocks = st.listensocks ∧ st'.listensockcount = st.listensockcount
      ∧ st'.udpsocks = st.udpsocks ∧ st'.udpsockcount = st.udpsockcount
      ∧ st'.svr_opts = st.svr_opts ∧ st'.maxsock = st.maxsock)
    ∧ ((st'.childpipes = st.childpipes ∧ st'.preauth_addrs = st.preauth_addrs)
      ∨ (admission_rejects L st c.remote_host = false
        ∧ st'.childpipes
            = Function.update st.childpipes (admission_scan L st c.remote_host).conn_idx c.pipe_r
        ∧ st'.preauth_addrs
            = Function.update st.preauth_addrs (admission_scan L st c.remote_host).conn_idx
                (AddrPtr.live c.remote_host))) := by
  have e1 := admission_rejects_congr L st
    ((st.log (Event.accept lfd c.childsock)).opened [c.childsock]) c.remote_host rfl rfl
  have e2 := admission_scan_congr L st
    ((st.log (Event.accept lfd c.childsock)).opened [c.childsock]) c.remote_host rfl rfl
  unfold accept_conn at h
  simp only [e1, e2] at h
  split at h
  · cases h; simp
  · split at h
    · cases h; simp
    · split at h
      · cases h; simp
      · split at h
        · cases h; simp
        · split at h
          · rename_i hr _ _ _
            cases h
            refine ⟨by simp, Or.inr ⟨by simpa using hr, ?_, ?_⟩⟩ <;> simp
          · exact absurd h (child_branch_not_ok _ _ _)

/-- C2, scenario 1: with `MAX_UNAUTH_PER_IP = 2`, after two connections from
`10.0.0.5` were let in, a third one from `10.0.0.5` is refused and one from
`10.0.0.9` is not. -/
theorem admission_rejects_exactly_at_cap_witness :
    (0 ≤ (conn_from "10.0.0.5" 9 10 11 102).childsock
      ∧ admission_rejects L2 st_two "10.0.0.5" = true
      ∧ admission_rejects L2 st_two "10.0.0.9" = false)
    ∧ (L2.MAX_UNAUTH_CLIENTS ≤ occupied_total L2 st_two
        ∨ L2.MAX_UNAUTH_PER_IP ≤ occupied_for_addr L2 st_two "10.0.0.5")
    ∧ ¬ (L2.MAX_UNAUTH_CLIENTS ≤ occupied_total L2 st_two
        ∨ L2.MAX_UNAUTH_PER_IP ≤ occupied_for_addr L2 st_two "10.0.0.9")
    ∧ (accept_conn L2 (conn_from "10.0.0.5" 9 10 11 102) 3 st_two).state.childpipes
        = st_two.childpipes :=
  ⟨⟨by decide, by decide, by decide⟩,
   (admission_rejects_exactly_at_cap L2 st_two (conn_from "10.0.0.5" 9 10 11 102) 3).1.1
      (by decide),
   fun h => absurd
      ((admission_rejects_exactly_at_cap L2 st_two (conn_from "10.0.0.9" 9 10 11 102) 3).1.2 h)
      (by decide),
   ((admission_rejects_exactly_at_cap L2 st_two (conn_from "10.0.0.5" 9 10 11 102) 3).2
      (by decide) (by decide)).2.1⟩

/-- C10: whenever the admission scan does not refuse, the index `conn_idx` it
leaves lies inside the slot array and designates a free slot; the parent's
store goes to that index, and every slot that was occupied before the step
keeps its notification handle and its address. -/
theorem admitted_store_hits_free_slot (L : Limits) (st : State) (c : ConnEnv) (lfd : Int)
    (h : admission_rejects L st c.remote_host = false) :
    (admission_scan L st c.remote_host).conn_idx < L.MAX_UNAUTH_CLIENTS
    ∧ st.childpipes (admission_scan L st c.remote_host).conn_idx < 0
    ∧ (0 ≤ c.childsock → 0 ≤ c.pipe_ret → 0 < c.fork_ret →
        ∃ st', accept_conn L c lfd st = Exec.ok () st'
          ∧ st'.childpipes
              = Function.update st.childpipes (admission_scan L st c.remote_host).conn_idx c.pipe_r
          ∧ st'.preauth_addrs
              = Function.update st.preauth_addrs (admission_scan L st c.remote_host).conn_idx
                  (AddrPtr.live c.remote_host))
    ∧ (∀ st', accept_conn L c lfd st = Exec.ok () st' →
        ∀ j, 0 ≤ st.childpipes j →
          st'.childpipes j = st.childpipes j ∧ st'.preauth_addrs j = st.preauth_addrs j) := by
  obtain ⟨f1, f2, _⟩ := conn_idx_free L st c.remote_host h
  refine ⟨f1, f2, ?_, ?_⟩
  · intro hs hp hf
    obtain ⟨st', e, e1, e2, _⟩ := accept_conn_parent L c lfd st hs h hp hf
    exact ⟨st', e, e1, e2⟩
  · intro st' e j hj
    rcases (accept_conn_ok_cases L c lfd st st' e).2 with ⟨e1, e2⟩ | ⟨_, e1, e2⟩
    · simp [e1, e2]
    · have hne : j ≠ (admission_scan L st c.remote_host).conn_idx := by
        intro hh; rw [hh] at hj; omega
      simp [e1, e2, Function.update_noteq hne]

theorem admitted_store_hits_free_slot_witness :
    admission_rejects L2 st_two (conn_from "10.0.0.9" 9 10 11 102).remote_host = false
    ∧ (admission_scan L2 st_two "10.0.0.9").conn_idx < 4
    ∧ st_two.childpipes (admission_scan L2 st_two "10.0.0.9").conn_idx < 0 :=
  ⟨by decide,
   (admitted_store_hits_free_slot L2 st_two (conn_from "10.0.0.9" 9 10 11 102) 3 (by decide)).1,
   (admitted_store_hits_free_slot L2 st_two (conn_from "10.0.0.9" 9 10 11 102) 3 (by decide)).2.1⟩

/-! ## The watched set -/

theorem watch_fold (l : List Nat) (w : List Int) (s : State) :
    ((l.foldl watch_body (w, s)).2 = { s with maxsock := (l.foldl watch_body (w, s)).2.maxsock })
    ∧ ∀ fd, fd ∈ (l.foldl watch_body (w, s)).1
        ↔ fd ∈ w ∨ ∃ j, j ∈ l ∧ 0 ≤ s.childpipes j ∧ s.childpipes j = fd := by
  induction l generalizing w s with
  | nil => simp
  | cons j l ih =>
    rw [List.foldl_cons]
    by_cases h : 0 ≤ s.childpipes j
    · have e : watch_body (w, s) j
          = (w ++ [s.childpipes j], { s with maxsock := max s.maxsock (s.childpipes j) }) := by
        simp [watch_body, h]
      rw [e]
      obtain ⟨i1, i2⟩ := ih (w ++ [s.childpipes j])
        { s with maxsock := max s.maxsock (s.childpipes j) }
      refine ⟨?_, ?_⟩
      · rw [i1]
      · intro fd
        rw [i2 fd]
        constructor
        · rintro (h1 | ⟨k, hk, hk1, hk2⟩)
          · rcases List.mem_append.1 h1 with h2 | h2
            · exact Or.inl h2
            · refine Or.inr ⟨j, List.mem_cons_self _ _, h, ?_⟩
              simpa using (List.mem_singleton.1 h2).symm
          · exact Or.inr ⟨k, List.mem_cons_of_mem _ hk, hk1, hk2⟩
        · rintro (h1 | ⟨k, hk, hk1, hk2⟩)
          · exact Or.inl (List.mem_append.2 (Or.inl h1))
          · rcases List.mem_cons.1 hk with h2 | h2
            · subst h2
              exact Or.inl (List.mem_append.2 (Or.inr (by simp [hk2])))
            · exact Or.inr ⟨k, h2, hk1, hk2⟩
    · have e : watch_body (w, s) j = (w, s) := by simp [watch_body, h]
      rw [e]
      obtain ⟨i1, i2⟩ := ih w s
      refine ⟨i1, ?_⟩
      intro fd
      rw [i2 fd]
      constructor
      · rintro (h1 | ⟨k, hk, hk1, hk2⟩)
        · exact Or.inl h1
        · exact Or.inr ⟨k, List.mem_cons_of_mem _ hk, hk1, hk2⟩
      · rintro (h1 | ⟨k, hk, hk1, hk2⟩)
        · exact Or.inl h1
        · rcases List.mem_cons.1 hk with h2 | h2
          · subst h2; exact absurd hk1 h
          · exact Or.inr ⟨k, h2, hk1, hk2⟩

/-- Building the watched set changes no variable but `maxsock`. -/
theorem build_watch_state (L : Limits) (st : State) :
    (build_watch L st).2 = { st with maxsock := (build_watch L st).2.maxsock } :=
  (watch_fold _ _ st).1

/-- The descriptors handed to `select`: the stream listeners, the datagram
listeners and the notification handles of the occupied slots. -/
theorem mem_build_watch (L : Limits) (st : State) (fd : Int) :
    fd ∈ (build_watch L st).1
      ↔ (∃ i, i < st.listensockcount ∧ st.listensocks i = fd)
        ∨ (∃ i, i < st.udpsockcount ∧ st.udpsocks i = fd)
        ∨ ∃ j, j < L.MAX_UNAUTH_CLIENTS ∧ 0 ≤ st.childpipes j ∧ st.childpipes j = fd := by
  unfold build_watch
  rw [(watch_fold _ _ st).2 fd]
  simp [List.mem_append, List.mem_map, List.mem_range, or_assoc]

/-! ## Termination -/

/-- C7: if the termination flag is set when `select` returns, whatever value
`select` returned and whichever descriptors are ready, the pass ends in
`Shutdown`: after the wait the only calls are the removal of the pid-file and
the exit, no slot is reaped, no datagram received, no connection accepted, and
the slot arrays, the listener arrays and counts, the configuration and the
open descriptors are those from before the pass (`maxsock` is raised by lines
209-214, before the wait).  No later pass is run. -/
theorem termination_flag_stops_dispatch (L : Limits) (fuel : Nat) (env : IterEnv) (st : State)
    (rest : List (Nat × IterEnv)) (h : env.exitflag = true) :
    loop_iteration L fuel env st
      = Exec.stop Stop.shutdown
          { st with
            maxsock := (build_watch L st).2.maxsock,
            trace := st.trace ++ [Event.select env.val, Event.unlink st.svr_opts.pidfile,
              Event.dropbear_exit "Terminated by signal"] }
    ∧ run L ((fuel, env) :: rest) st = loop_iteration L fuel env st := by
  have e : loop_iteration L fuel env st
      = Exec.stop Stop.shutdown
          { st with
            maxsock := (build_watch L st).2.maxsock,
            trace := st.trace ++ [Event.select env.val, Event.unlink st.svr_opts.pidfile,
              Event.dropbear_exit "Terminated by signal"] } := by
    unfold loop_iteration
    simp only [h, if_true]
    rw [build_watch_state L st]
    simp [State.log]
  refine ⟨e, ?_⟩
  simp only [run]
  rw [e]

theorem termination_flag_stops_dispatch_witness :
    env_term.exitflag = true
    ∧ (loop_iteration L2 5 env_term st_two).state.childpipes = st_two.childpipes
    ∧ run L2 [(5, env_term), (5, env_trigger)] st_two = loop_iteration L2 5 env_term st_two :=
  ⟨rfl,
   by rw [(termination_flag_stops_dispatch L2 5 env_term st_two [] rfl).1]; rfl,
   (termination_flag_stops_dispatch L2 5 env_term st_two [(5, env_trigger)] rfl).2⟩

/-! ## The trigger handler -/

theorem size_add_int_zero (a : Nat) (h : a < SIZE_MOD) : size_add_int a 0 = a := by
  unfold size_add_int
  simp only [add_zero]
  have h1 : ((a : Int) % (SIZE_MOD : Int)) = (a : Int) :=
    Int.emod_eq_of_lt (by omega) (by exact_mod_cast h)
  rw [h1]; simp

/-- C3: a datagram whose magic field is not `0xDEADBEEF` makes
`handle_udp_packet` return 0 in the state it was called in: the trace is the
same (no `fork`, no `dropbear_listen`), and so are the listener array,
`maxsock` and `svr_opts`.  The dispatch loop then adds 0 to the listener
count: for a count that fits the 32-bit counter of lines 259-262 the step
returns with the descriptor set as it was and a state that differs from the
one before only by the `recvfrom` in the trace. -/
theorem sentinel_mismatch_no_effect (L : Limits) (d : DatagramEnv) (i : Nat) (fds : List Int)
    (st : State) (h : d.msg.magic ≠ MAGIC) :
    (∀ count, handle_udp_packet L d.trigger d.msg count st = Exec.ok 0 st)
    ∧ (st.listensockcount < UINT_MOD →
        udp_ready L d i fds st
          = Exec.ok (st.listensockcount, fds) (st.log (Event.recvfrom (st.udpsocks i)))) := by
  have e : ∀ (count : Nat) (s : State),
      handle_udp_packet L d.trigger d.msg count s = Exec.ok 0 s := by
    intro count s
    simp [handle_udp_packet, h]
  refine ⟨fun count => e count st, ?_⟩
  intro hc
  have h64 : st.listensockcount < SIZE_MOD := by
    have : UINT_MOD ≤ SIZE_MOD := by decide
    omega
  have hz := size_add_int_zero st.listensockcount h64
  unfold udp_ready
  simp only [e]
  have hm : st.listensockcount % UINT_MOD = st.listensockcount := Nat.mod_eq_of_lt hc
  have hn : ¬ UINT_MOD ≤ st.listensockcount := by omega
  simp [add_new_fds, hz, hm, hn]
  rfl

/-- C3 at a concrete input: a datagram with magic 0 arrives in `st0`. -/
theorem sentinel_mismatch_no_effect_witness :
    stray_datagram.msg.magic ≠ MAGIC
    ∧ handle_udp_packet L2 stray_datagram.trigger stray_datagram.msg 1 st0 = Exec.ok 0 st0
    ∧ udp_ready L2 stray_datagram 0 [4] st0
        = Exec.ok (1, [4]) (st0.log (Event.recvfrom 4)) :=
  ⟨by decide,
   (sentinel_mismatch_no_effect L2 stray_datagram 0 [4] st0 (by decide)).1 1,
   (sentinel_mismatch_no_effect L2 stray_datagram 0 [4] st0 (by decide)).2 (by decide)⟩

/-! ## Counting -/

theorem countP_le_add {α : Type} (p q r : α → Bool) (l : List α)
    (h : ∀ x, x ∈ l → q x = true → p x = true ∨ r x = true) :
    l.countP q ≤ l.countP p + l.countP r := by
  induction l with
  | nil => simp
  | cons x l ih =>
    have ih1 := ih (fun y hy => h y (List.mem_cons_of_mem _ hy))
    have hx := h x (List.mem_cons_self _ _)
    simp only [List.countP_cons]
    cases hq : q x <;> cases hp : p x <;> cases hr : r x <;> simp_all <;> omega

theorem countP_index_le_one (idx n : Nat) :
    (List.range n).countP (fun j => decide (j = idx)) ≤ 1 := by
  have key : (List.range n).countP (fun j => decide (j = idx)) = if idx < n then 1 else 0 := by
    induction n with
    | zero => simp
    | succ n ih =>
      rw [List.range_succ, List.countP_append, ih]
      by_cases h1 : idx < n
      · have h2 : n ≠ idx := by omega
        have h3 : idx < n + 1 := by omega
        simp [h1, h2, h3]
      · by_cases h2 : n = idx
        · subst h2; simp
        · have h3 : ¬ idx < n + 1 := by omega
          simp [h1, h2, h3]
  rw [key]; split <;> omega

theorem occupied_for_addr_congr (L : Limits) (st st' : State) (a : String)
    (h1 : st'.childpipes = st.childpipes) (h2 : st'.preauth_addrs = st.preauth_addrs) :
    occupied_for_addr L st' a = occupied_for_addr L st a := by
  simp [occupied_for_addr, occupied, h1, h2]

theorem slot_invariant_congr (L : Limits) (st st' : State)
    (h1 : st'.childpipes = st.childpipes) (h2 : st'.preauth_addrs = st.preauth_addrs)
    (hi : slot_invariant L st) : slot_invariant L st' := by
  intro a
  rw [occupied_for_addr_congr L st st' a h1 h2]
  exact hi a

/-- The initial slot array satisfies the bound. -/
theorem init_slots_invariant (L : Limits) (st : State) : slot_invariant L (init_slots L st) := by
  intro a
  have h : occupied_for_addr L (init_slots L st) a = 0 := by
    unfold occupied_for_addr
    rw [List.countP_eq_zero]
    intro j hj
    have hj1 : j < L.MAX_UNAUTH_CLIENTS := List.mem_range.1 hj
    simp [occupied, init_slots, hj1]
  omega

theorem contains_iff_mem (l : List Int) (x : Int) : l.contains x = true ↔ x ∈ l := by
  simp

/-- What the reaping loop has done after the indices below `n`. -/
theorem reap_fold (fds : List Int) (st : State) (n : Nat) :
    let s := (List.range n).foldl (reap_body fds) st
    (∀ j, s.childpipes j
        = if j < n ∧ 0 ≤ st.childpipes j ∧ st.childpipes j ∈ fds then -1
          else st.childpipes j)
    ∧ (∀ j, s.preauth_addrs j
        = if j < n ∧ 0 ≤ st.childpipes j ∧ st.childpipes j ∈ fds
          then AddrPtr.freed else st.preauth_addrs j)
    ∧ (s.listensocks = st.listensocks ∧ s.listensockcount = st.listensockcount
        ∧ s.udpsocks = st.udpsocks ∧ s.udpsockcount = st.udpsockcount
        ∧ s.svr_opts = st.svr_opts ∧ s.maxsock = st.maxsock)
    ∧ (∀ e, e ∈ st.trace → e ∈ s.trace)
    ∧ (∀ j, j < n → 0 ≤ st.childpipes j → st.childpipes j ∈ fds →
        Event.m_close (st.childpipes j) ∈ s.trace) := by
  induction n with
  | zero => simp
  | succ n ih =>
    simp only [List.range_succ, List.foldl_append, List.foldl_cons, List.foldl_nil]
    obtain ⟨a1, a2, a3, a4, a5⟩ := ih
    have hn : ((List.range n).foldl (reap_body fds) st).childpipes n = st.childpipes n := by
      rw [a1 n]; simp
    have hlt : ∀ j, j ≠ n → ((j < n + 1) = (j < n)) := by
      intro j hj; apply propext; omega
    by_cases hc : 0 ≤ st.childpipes n ∧ st.childpipes n ∈ fds
    · have hne : st.childpipes n ≠ -1 := by omega
      have e : reap_body fds ((List.range n).foldl (reap_body fds) st) n
          = { (m_close (st.childpipes n) ((List.range n).foldl (reap_body fds) st)) with
              childpipes := Function.update
                ((List.range n).foldl (reap_body fds) st).childpipes n (-1),
              preauth_addrs := Function.update
                ((List.range n).foldl (reap_body fds) st).preauth_addrs n AddrPtr.freed } := by
        simp only [reap_body, hn, contains_iff_mem, hc, and_self, if_true,
          m_close_childpipes, m_close_preauth_addrs]
      rw [e]
      refine ⟨?_, ?_, ?_, ?_, ?_⟩
      · intro j
        by_cases hj : j = n
        · subst hj; simp [hc.1, hc.2]
        · simp [Function.update_noteq hj, a1 j, hlt j hj]
      · intro j
        by_cases hj : j = n
        · subst hj; simp [hc.1, hc.2]
        · simp [Function.update_noteq hj, a2 j, hlt j hj]
      · simpa using a3
      · intro ev hev
        have := a4 ev hev
        simp [m_close, hne, this]
      · intro j hj h1 h2
        by_cases hjn : j = n
        · subst hjn; simp [m_close, hne]
        · have := a5 j (by omega) h1 h2
          simp [m_close, hne, this]
    · have e : reap_body fds ((List.range n).foldl (reap_body fds) st) n
          = (List.range n).foldl (reap_body fds) st := by
        simp only [reap_body, hn, contains_iff_mem, hc, if_false]
      rw [e]
      refine ⟨?_, ?_, a3, a4, ?_⟩
      · intro j
        by_cases hj : j = n
        · subst hj; rw [a1 j]; simp [hc]
        · rw [a1 j]; simp only [hlt j hj]
      · intro j
        by_cases hj : j = n
        · subst hj; rw [a2 j]; simp [hc]
        · rw [a2 j]; simp only [hlt j hj]
      · intro j hj h1 h2
        by_cases hjn : j = n
        · subst hjn; exact absurd ⟨h1, h2⟩ hc
        · exact a5 j (by omega) h1 h2

/-- Reaping never raises a per-address count. -/
theorem reap_ready_invariant (L : Limits) (fds : List Int) (st : State)
    (hi : slot_invariant L st) : slot_invariant L (reap_ready L fds st) := by
  intro a
  obtain ⟨a1, a2, _⟩ := reap_fold fds st L.MAX_UNAUTH_CLIENTS
  have h : occupied_for_addr L (reap_ready L fds st) a ≤ occupied_for_addr L st a := by
    unfold occupied_for_addr
    apply List.countP_mono_left
    intro j _ hq
    simp only [occupied, reap_ready, Bool.and_eq_true, decide_eq_true_eq] at hq ⊢
    rw [a1 j, a2 j] at hq
    by_cases hc : j < L.MAX_UNAUTH_CLIENTS ∧ 0 ≤ st.childpipes j ∧ st.childpipes j ∈ fds
    · simp [hc] at hq
    · simpa [hc] using hq
  exact le_trans h (hi a)

/-! ## Datagram handling leaves the slots alone -/

theorem handle_udp_packet_slots (L : Limits) (t : TriggerEnv) (m : listen_packet_t)
    (count : Nat) (st : State) :
    (handle_udp_packet L t m count st).state.childpipes = st.childpipes
      ∧ (handle_udp_packet L t m count st).state.preauth_addrs = st.preauth_addrs := by
  unfold handle_udp_packet
  split
  · split
    · simp [Exec.state]
    · split
      · simp only [Exec.state]
        split <;> simp
      · simp [Exec.state]
  · simp [Exec.state]

theorem udp_ready_slots (L : Limits) (d : DatagramEnv) (i : Nat) (fds : List Int)
    (st : State) :
    (udp_ready L d i fds st).state.childpipes = st.childpipes
      ∧ (udp_ready L d i fds st).state.preauth_addrs = st.preauth_addrs := by
  have hs := handle_udp_packet_slots L d.trigger d.msg
    (st.log (Event.recvfrom (st.udpsocks i))).listensockcount
    (st.log (Event.recvfrom (st.udpsocks i)))
  unfold udp_ready
  simp only
  split
  · rename_i why st1 hh
    rw [hh] at hs
    simpa [Exec.state] using hs
  · rename_i nnew st1 hh
    rw [hh] at hs
    split
    · simpa [Exec.state] using hs
    · simpa [Exec.state] using hs

theorem udp_loop_slots (L : Limits) (dg : Nat → DatagramEnv) (fuel : Nat) :
    ∀ (i nrecv : Nat) (fds : List Int) (st : State),
      (udp_loop L dg fuel i nrecv fds st).state.childpipes = st.childpipes
      ∧ (udp_loop L dg fuel i nrecv fds st).state.preauth_addrs = st.preauth_addrs := by
  induction fuel with
  | zero => intro i nrecv fds st; simp [udp_loop, Exec.state]
  | succ fuel ih =>
    intro i nrecv fds st
    unfold udp_loop
    split
    · split
      · have h1 := udp_ready_slots L (dg nrecv) i fds st
        split
        · rename_i why st1 hh
          rw [hh] at h1
          simpa [Exec.state] using h1
        · rename_i i1 fds1 st1 hh
          rw [hh] at h1
          have h2 := ih (i1 + 1) (nrecv + 1) fds1 st1
          simp only [Exec.state] at h1
          exact ⟨h2.1.trans h1.1, h2.2.trans h1.2⟩
      · exact ih _ _ _ _
    · simp [Exec.state]

/-! ## The invariant along the dispatch loop -/

theorem close_fold_slots (l : List Nat) :
    ∀ (st : State),
      (l.foldl (fun s j => m_close (s.listensocks j) s) st).childpipes = st.childpipes
      ∧ (l.foldl (fun s j => m_close (s.listensocks j) s) st).preauth_addrs
          = st.preauth_addrs := by
  induction l with
  | nil => intro st; simp
  | cons j rest ih =>
    intro st
    rw [List.foldl_cons]
    have h := ih (m_close (st.listensocks j) st)
    simpa using h

theorem child_branch_slots (c : ConnEnv) (st : State) :
    (child_branch c st).state.childpipes = st.childpipes
      ∧ (child_branch c st).state.preauth_addrs = st.preauth_addrs := by
  unfold child_branch
  simp only
  split
  · simp [Exec.state]
  · have h := close_fold_slots
      (List.range ((st.log (Event.dropbear_log
        ("Child connection from " ++ c.remote_host ++ ":" ++ c.remote_port))).log
          (Event.setsid c.setsid_ret)).listensockcount)
      ((st.log (Event.dropbear_log
        ("Child connection from " ++ c.remote_host ++ ":" ++ c.remote_port))).log
          (Event.setsid c.setsid_ret))
    simpa [Exec.state] using h

/-- Whatever an accept step does to the slot arrays, returning or not:
nothing, or the parent's store into `conn_idx` after a scan that did not
refuse. -/
theorem accept_conn_state_cases (L : Limits) (c : ConnEnv) (lfd : Int) (st : State) :
    ((accept_conn L c lfd st).state.childpipes = st.childpipes
      ∧ (accept_conn L c lfd st).state.preauth_addrs = st.preauth_addrs)
    ∨ (admission_rejects L st c.remote_host = false
      ∧ (accept_conn L c lfd st).state.childpipes
          = Function.update st.childpipes (admission_scan L st c.remote_host).conn_idx c.pipe_r
      ∧ (accept_conn L c lfd st).state.preauth_addrs
          = Function.update st.preauth_addrs (admission_scan L st c.remote_host).conn_idx
              (AddrPtr.live c.remote_host)) := by
  have e1 := admission_rejects_congr L st
    ((st.log (Event.accept lfd c.childsock)).opened [c.childsock]) c.remote_host rfl rfl
  have e2 := admission_scan_congr L st
    ((st.log (Event.accept lfd c.childsock)).opened [c.childsock]) c.remote_host rfl rfl
  unfold accept_conn
  simp only [e1, e2]
  split
  · left; simp [Exec.state]
  · split
    · left; simp [Exec.state]
    · split
      · left; simp [Exec.state]
      · split
        · left; simp [Exec.state]
        · split
          · rename_i hr _ _ _
            right
            refine ⟨by simpa using hr, ?_, ?_⟩ <;> simp [Exec.state]
          · left
            constructor
            · rw [(child_branch_slots c _).1]; simp
            · rw [(child_branch_slots c _).2]; simp

/-- An accept step keeps the per-address bound, whether it returns or not. -/
theorem accept_conn_invariant (L : Limits) (c : ConnEnv) (lfd : Int) (st : State)
    (hi : slot_invariant L st) : slot_invariant L (accept_conn L c lfd st).state := by
  rcases accept_conn_state_cases L c lfd st with ⟨e1, e2⟩ | ⟨hr, e1, e2⟩
  · exact slot_invariant_congr L st _ e1 e2 hi
  · intro a
    obtain ⟨_, f2, _⟩ := conn_idx_free L st c.remote_host hr
    have hlt : occupied_for_addr L st c.remote_host < L.MAX_UNAUTH_PER_IP := by
      have h1 : ¬ (L.MAX_UNAUTH_CLIENTS ≤ occupied_total L st
          ∨ L.MAX_UNAUTH_PER_IP ≤ occupied_for_addr L st c.remote_host) := by
        rw [← rejects_iff]; simp [hr]
      push_neg at h1
      exact h1.2
    have hle := countP_le_add
      (fun j => occupied st j && decide (st.preauth_addrs j = AddrPtr.live a))
      (fun j => occupied (accept_conn L c lfd st).state j
        && decide ((accept_conn L c lfd st).state.preauth_addrs j = AddrPtr.live a))
      (fun j => decide (j = (admission_scan L st c.remote_host).conn_idx)
        && decide (c.remote_host = a))
      (List.range L.MAX_UNAUTH_CLIENTS)
      (by
        intro j _ hq
        by_cases hj : j = (admission_scan L st c.remote_host).conn_idx
        · right
          subst hj
          simp only [occupied, e1, e2, Function.update_same, Bool.and_eq_true,
            decide_eq_true_eq, AddrPtr.live.injEq] at hq
          simp [hq.2]
        · left
          simpa [occupied, e1, e2, Function.update_noteq hj] using hq)
    have hi1 := hi a
    unfold occupied_for_addr at hi1 hlt ⊢
    by_cases ha : c.remote_host = a
    · subst ha
      have h1 := countP_index_le_one (admission_scan L st c.remote_host).conn_idx
        L.MAX_UNAUTH_CLIENTS
      simp only [decide_True, Bool.and_true] at hle
      omega
    · have hz : (List.range L.MAX_UNAUTH_CLIENTS).countP
          (fun j => decide (j = (admission_scan L st c.remote_host).conn_idx)
            && decide (c.remote_host = a)) = 0 := by
        rw [List.countP_eq_zero]
        intro j _
        simp [ha]
      rw [hz] at hle
      omega

theorem tcp_loop_invariant (L : Limits) (conn : Nat → ConnEnv) (fds : List Int)
    (l : List Nat) :
    ∀ (st : State), slot_invariant L st → slot_invariant L (tcp_loop L conn fds l st).state := by
  induction l with
  | nil => intro st hi; simpa [tcp_loop, Exec.state] using hi
  | cons i rest ih =>
    intro st hi
    unfold tcp_loop
    split
    · have h1 := accept_conn_invariant L (conn i) (st.listensocks i) st hi
      split
      · rename_i why st1 hh
        rw [hh] at h1
        simpa [Exec.state] using h1
      · rename_i u st1 hh
        rw [hh] at h1
        exact ih st1 (by simpa [Exec.state] using h1)
    · exact ih st hi

theorem loop_iteration_invariant (L : Limits) (fuel : Nat) (env : IterEnv) (st : State)
    (hi : slot_invariant L st) : slot_invariant L (loop_iteration L fuel env st).state := by
  have hw : slot_invariant L ((build_watch L st).2.log (Event.select env.val)) := by
    apply slot_invariant_congr L st _ _ _ hi
    · rw [build_watch_state L st]; rfl
    · rw [build_watch_state L st]; rfl
  have h2 := reap_ready_invariant L (List.filter env.ready (build_watch L st).1) _ hw
  have h1 := udp_loop_slots L env.datagrams fuel 0 0 (List.filter env.ready (build_watch L st).1)
    (reap_ready L (List.filter env.ready (build_watch L st).1)
      ((build_watch L st).2.log (Event.select env.val)))
  unfold loop_iteration
  simp only
  split
  · exact slot_invariant_congr L _ _ rfl rfl hw
  · split
    · exact hw
    · split
      · split
        · exact hw
        · exact slot_invariant_congr L _ _ rfl rfl hw
      · split
        · rename_i why st3 hh
          rw [hh] at h1
          exact slot_invariant_congr L _ _ h1.1 h1.2 h2
        · rename_i fds1 st3 hh
          rw [hh] at h1
          exact tcp_loop_invariant L _ _ _ _ (slot_invariant_congr L _ _ h1.1 h1.2 h2)

theorem run_invariant (L : Limits) (envs : List (Nat × IterEnv)) :
    ∀ (st : State), slot_invariant L st → slot_invariant L (run L envs st).state := by
  induction envs with
  | nil => intro st hi; simpa [run, Exec.state] using hi
  | cons e rest ih =>
    intro st hi
    have h1 := loop_iteration_invariant L e.1 e.2 st hi
    unfold run
    split
    · rename_i why st1 hh
      rw [hh] at h1
      simpa [Exec.state] using h1
    · rename_i u st1 hh
      rw [hh] at h1
      exact ih st1 (by simpa [Exec.state] using h1)

/-- C1: start from the all-free slot array and run any finite number of passes
of the dispatch loop, whatever is ready, whatever the remote addresses and
whatever the outside world answers.  In the state reached (after the last
pass, or at the point where a pass left the loop) the number of occupied
slots holding any given address is at most `MAX_UNAUTH_PER_IP` and the number
of occupied slots is at most `MAX_UNAUTH_CLIENTS`. -/
theorem admission_caps_hold (L : Limits) (start : State) (envs : List (Nat × IterEnv))
    (a : String) :
    occupied_for_addr L (run L envs (init_slots L start)).state a ≤ L.MAX_UNAUTH_PER_IP
      ∧ occupied_total L (run L envs (init_slots L start)).state ≤ L.MAX_UNAUTH_CLIENTS :=
  ⟨run_invariant L envs _ (init_slots_invariant L start) a, occupied_total_le L _⟩

/-- C1 at a concrete run: three passes, each with a connection from
`10.0.0.5`; the third connection is refused and the address holds two slots. -/
theorem admission_caps_hold_witness :
    (run L2 [(5, env_conn), (5, env_conn), (5, env_conn)] (init_slots L2 st_raw)).result = some ()
    ∧ occupied_for_addr L2
        (run L2 [(5, env_conn), (5, env_conn), (5, env_conn)] (init_slots L2 st_raw)).state
        "10.0.0.5" = 2
    ∧ occupied_for_addr L2
        (run L2 [(5, env_conn), (5, env_conn), (5, env_conn)] (init_slots L2 st_raw)).state
        "10.0.0.5" ≤ L2.MAX_UNAUTH_PER_IP :=
  ⟨by decide, by decide,
   (admission_caps_hold L2 st_raw [(5, env_conn), (5, env_conn), (5, env_conn)] "10.0.0.5").1⟩

/-! ## One pass with a single released slot and a single connection -/

theorem udp_loop_idle (L : Limits) (dg : Nat → DatagramEnv) (fds : List Int) (st : State)
    (hn : ∀ i, i < st.udpsockcount → st.udpsocks i ∉ fds) (fuel : Nat) :
    ∀ (i nrecv : Nat), st.udpsockcount - i < fuel →
      udp_loop L dg fuel i nrecv fds st = Exec.ok fds st := by
  induction fuel with
  | zero => intro i nrecv h; omega
  | succ fuel ih =>
    intro i nrecv h
    unfold udp_loop
    by_cases hi : i < st.udpsockcount
    · have hc : ¬ (fds.contains (st.udpsocks i) = true) := by
        rw [contains_iff_mem]; exact hn i hi
      simp only [hi, if_true, hc, if_false]
      exact ih (i + 1) nrecv (by omega)
    · simp only [hi, if_false]

theorem tcp_loop_idle (L : Limits) (conn : Nat → ConnEnv) (fds : List Int) (l : List Nat) :
    ∀ (st : State), (∀ i, i ∈ l → st.listensocks i ∉ fds) →
      tcp_loop L conn fds l st = Exec.ok () st := by
  induction l with
  | nil => intro st _; rfl
  | cons i rest ih =>
    intro st h
    have hc : ¬ (fds.contains (st.listensocks i) = true) := by
      rw [contains_iff_mem]; exact h i (List.mem_cons_self _ _)
    unfold tcp_loop
    simp only [hc, if_false]
    exact ih st (fun k hk => h k (List.mem_cons_of_mem _ hk))

theorem tcp_loop_single (L : Limits) (conn : Nat → ConnEnv) (fds : List Int) (lidx : Nat)
    (l : List Nat) :
    ∀ (st st1 : State), l.Nodup → lidx ∈ l →
      (∀ i, i ∈ l → i ≠ lidx → st.listensocks i ∉ fds) →
      st.listensocks lidx ∈ fds →
      accept_conn L (conn lidx) (st.listensocks lidx) st = Exec.ok () st1 →
      tcp_loop L conn fds l st = Exec.ok () st1 := by
  induction l with
  | nil => intro st st1 _ hm; simp at hm
  | cons i rest ih =>
    intro st st1 hnd hm hothers hready hacc
    have hnd1 := List.nodup_cons.1 hnd
    by_cases hi : i = lidx
    · subst hi
      have hc : fds.contains (st.listensocks i) = true := (contains_iff_mem _ _).2 hready
      unfold tcp_loop
      simp only [hc, if_true, hacc]
      have hls := (accept_conn_ok_cases L _ _ _ _ hacc).1.1
      apply tcp_loop_idle
      intro k hk
      rw [hls]
      exact hothers k (List.mem_cons_of_mem _ hk) (fun hh => hnd1.1 (hh ▸ hk))
    · have hc : ¬ (fds.contains (st.listensocks i) = true) := by
        rw [contains_iff_mem]; exact hothers i (List.mem_cons_self _ _) hi
      have hm1 : lidx ∈ rest := by
        rcases List.mem_cons.1 hm with h1 | h1
        · exact absurd h1.symm hi
        · exact h1
      unfold tcp_loop
      simp only [hc, if_false]
      exact ih st st1 hnd1.2 hm1 (fun k hk => hothers k (List.mem_cons_of_mem _ hk)) hready hacc

theorem occupied_total_lt_of_free (L : Limits) (st : State) (j : Nat)
    (hj : j < L.MAX_UNAUTH_CLIENTS) (hf : st.childpipes j < 0) :
    occupied_total L st < L.MAX_UNAUTH_CLIENTS := by
  have h1 := occupied_total_le L st
  rcases Nat.lt_or_ge (occupied_total L st) L.MAX_UNAUTH_CLIENTS with h | h
  · exact h
  · have he : (List.range L.MAX_UNAUTH_CLIENTS).countP (occupied st)
        = (List.range L.MAX_UNAUTH_CLIENTS).length := by
      simp only [occupied_total] at h h1
      simp only [List.length_range]
      omega
    have hall := (List.countP_eq_length (p := occupied st)).1 he j (List.mem_range.2 hj)
    simp only [occupied, decide_eq_true_eq] at hall
    omega

/-- C8, as amended: in a state whose slots are all occupied, take a pass in
which the termination flag is clear and `select` returns a positive count,
slot `k` is the highest slot whose notification handle is ready, no datagram
socket is ready, listener `l` is the only ready stream listener, its `accept`,
the `pipe` and the `fork` succeed (parent branch), and the remote address
holds fewer than `MAX_UNAUTH_PER_IP` occupied slots once the slots with a
ready handle are released, which is the case in particular when it holds
fewer once slot `k` alone is released.  With fuel above the number of
datagram sockets the pass comes back, has closed the handle of slot `k`, has
stored the read end of the new notification channel and the remote address in
slot `k`, and has left every other slot with a ready handle free. -/
theorem released_slot_reused_same_pass (L : Limits) (fuel : Nat) (env : IterEnv) (st : State)
    (k l : Nat)
    (hfull : ∀ j, j < L.MAX_UNAUTH_CLIENTS → 0 ≤ st.childpipes j)
    (hk : k < L.MAX_UNAUTH_CLIENTS)
    (hflag : env.exitflag = false) (hval : 0 < env.val)
    (hready : env.ready (st.childpipes k) = true)
    (hhigh : ∀ j, j < L.MAX_UNAUTH_CLIENTS → k < j → env.ready (st.childpipes j) = false)
    (hudp : ∀ i, i < st.udpsockcount → env.ready (st.udpsocks i) = false)
    (hl : l < st.listensockcount)
    (hlr : env.ready (st.listensocks l) = true)
    (hlonly : ∀ i, i < st.listensockcount → i ≠ l → env.ready (st.listensocks i) = false)
    (hsock : 0 ≤ (env.conn l).childsock) (hpipe : 0 ≤ (env.conn l).pipe_ret)
    (hfork : 0 < (env.conn l).fork_ret)
    (haddr : occupied_for_addr_unready L env.ready st (env.conn l).remote_host
          < L.MAX_UNAUTH_PER_IP
        ∨ occupied_for_addr_except L st k (env.conn l).remote_host < L.MAX_UNAUTH_PER_IP)
    (hfuel : st.udpsockcount < fuel) :
    ∃ st', loop_iteration L fuel env st = Exec.ok () st'
      ∧ Event.m_close (st.childpipes k) ∈ st'.trace
      ∧ st'.childpipes k = (env.conn l).pipe_r
      ∧ st'.preauth_addrs k = AddrPtr.live (env.conn l).remote_host
      ∧ ∀ j, j < L.MAX_UNAUTH_CLIENTS → j ≠ k → env.ready (st.childpipes j) = true →
          st'.childpipes j = -1 := by
  -- the state and the descriptor set after `select`
  have f_cp : ((build_watch L st).2.log (Event.select env.val)).childpipes = st.childpipes := by
    rw [build_watch_state L st]; rfl
  have f_ad : ((build_watch L st).2.log (Event.select env.val)).preauth_addrs
      = st.preauth_addrs := by
    rw [build_watch_state L st]; rfl
  have f_ls : ((build_watch L st).2.log (Event.select env.val)).listensocks = st.listensocks := by
    rw [build_watch_state L st]; rfl
  have f_lc : ((build_watch L st).2.log (Event.select env.val)).listensockcount
      = st.listensockcount := by
    rw [build_watch_state L st]; rfl
  have f_us : ((build_watch L st).2.log (Event.select env.val)).udpsocks = st.udpsocks := by
    rw [build_watch_state L st]; rfl
  have f_uc : ((build_watch L st).2.log (Event.select env.val)).udpsockcount
      = st.udpsockcount := by
    rw [build_watch_state L st]; rfl
  have hfds : ∀ x, x ∈ List.filter env.ready (build_watch L st).1
      ↔ x ∈ (build_watch L st).1 ∧ env.ready x = true := fun x => List.mem_filter
  have hslot : ∀ j, j < L.MAX_UNAUTH_CLIENTS → env.ready (st.childpipes j) = true →
      st.childpipes j ∈ List.filter env.ready (build_watch L st).1 := by
    intro j hj hr
    rw [hfds]
    exact ⟨(mem_build_watch L st _).2 (Or.inr (Or.inr ⟨j, hj, hfull j hj, rfl⟩)), hr⟩
  have hkw : st.childpipes k ∈ List.filter env.ready (build_watch L st).1 := hslot k hk hready
  have hlw : st.listensocks l ∈ List.filter env.ready (build_watch L st).1 := by
    rw [hfds]
    exact ⟨(mem_build_watch L st _).2 (Or.inl ⟨l, hl, rfl⟩), hlr⟩
  generalize hF : List.filter env.ready (build_watch L st).1 = fds at hfds hslot hkw hlw
  generalize hS : (build_watch L st).2.log (Event.select env.val) = st1
    at f_cp f_ad f_ls f_lc f_us f_uc
  -- reaping
  obtain ⟨a1, a2, a3, _, a5⟩ := reap_fold fds st1 L.MAX_UNAUTH_CLIENTS
  have hR : (List.range L.MAX_UNAUTH_CLIENTS).foldl (reap_body fds) st1 = reap_ready L fds st1 :=
    rfl
  simp only [hR] at a1 a2 a3 a5
  generalize hS2 : reap_ready L fds st1 = st2 at a1 a2 a3 a5
  rw [f_cp] at a1 a2 a5
  rw [f_ad] at a2
  have c_ready : ∀ j, j < L.MAX_UNAUTH_CLIENTS → env.ready (st.childpipes j) = true →
      st2.childpipes j = -1 := by
    intro j hj hr
    rw [a1 j]; simp [hj, hfull j hj, hslot j hj hr]
  have c_k : st2.childpipes k = -1 := c_ready k hk hready
  have c_high : ∀ j, k < j → j < L.MAX_UNAUTH_CLIENTS → st2.childpipes j = st.childpipes j := by
    intro j h1 h2
    have hn : st.childpipes j ∉ fds := by
      intro hm
      have := ((hfds _).1 hm).2
      rw [hhigh j h2 h1] at this
      exact Bool.false_ne_true this
    rw [a1 j]; simp [hn]
  have t_k : Event.m_close (st.childpipes k) ∈ st2.trace := a5 k hk (hfull k hk) hkw
  -- admission on the state after reaping
  have hrej : admission_rejects L st2 (env.conn l).remote_host = false := by
    have h1 : ¬ (L.MAX_UNAUTH_CLIENTS ≤ occupied_total L st2
        ∨ L.MAX_UNAUTH_PER_IP ≤ occupied_for_addr L st2 (env.conn l).remote_host) := by
      have t1 := occupied_total_lt_of_free L st2 k hk (by rw [c_k]; decide)
      have t2 : occupied_for_addr L st2 (env.conn l).remote_host
          ≤ occupied_for_addr_except L st k (env.conn l).remote_host := by
        unfold occupied_for_addr occupied_for_addr_except
        apply List.countP_mono_left
        intro j hj hq
        have hj1 : j < L.MAX_UNAUTH_CLIENTS := List.mem_range.1 hj
        simp only [occupied, Bool.and_eq_true, decide_eq_true_eq] at hq ⊢
        rw [a1 j, a2 j] at hq
        by_cases hc : j < L.MAX_UNAUTH_CLIENTS ∧ 0 ≤ st.childpipes j ∧ st.childpipes j ∈ fds
        · simp [hc] at hq
        · have hjk : j ≠ k := by
            intro hh; subst hh
            exact hc ⟨hk, hfull j hk, hkw⟩
          simp only [hc, if_false] at hq
          exact ⟨hjk, hq⟩
      have t3 : occupied_for_addr L st2 (env.conn l).remote_host
          ≤ occupied_for_addr_unready L env.ready st (env.conn l).remote_host := by
        unfold occupied_for_addr occupied_for_addr_unready
        apply List.countP_mono_left
        intro j hj hq
        have hj1 : j < L.MAX_UNAUTH_CLIENTS := List.mem_range.1 hj
        simp only [occupied, Bool.and_eq_true, decide_eq_true_eq] at hq
        rw [a1 j, a2 j] at hq
        by_cases hc : j < L.MAX_UNAUTH_CLIENTS ∧ 0 ≤ st.childpipes j ∧ st.childpipes j ∈ fds
        · simp [hc] at hq
        · simp only [hc, if_false] at hq
          have hnr : env.ready (st.childpipes j) = false := by
            cases hr : env.ready (st.childpipes j)
            · rfl
            · exact absurd ⟨hj1, hq.1, hslot j hj1 hr⟩ hc
          simp [occupied, hnr, hq.1, hq.2]
      rcases haddr with ha | ha <;> omega
    cases hh : admission_rejects L st2 (env.conn l).remote_host
    · rfl
    · exact absurd ((rejects_iff L st2 _).1 hh) h1
  have hidx : (admission_scan L st2 (env.conn l).remote_host).conn_idx = k := by
    obtain ⟨i1, i2, i3⟩ := conn_idx_free L st2 _ hrej
    rcases Nat.lt_trichotomy (admission_scan L st2 (env.conn l).remote_host).conn_idx k
      with h | h | h
    · have := i3 k h hk
      rw [c_k] at this
      omega
    · exact h
    · rw [c_high _ h i1] at i2
      have := hfull _ i1
      omega
  obtain ⟨st', e0, e1, e2, e3⟩ := accept_conn_parent L (env.conn l) (st2.listensocks l) st2
    hsock hrej hpipe hfork
  rw [hidx] at e1 e2
  -- the pass
  have hv0 : ¬ env.val = 0 := by omega
  have hv1 : ¬ env.val < 0 := by omega
  have hudp2 : udp_loop L env.datagrams fuel 0 0 fds st2 = Exec.ok fds st2 := by
    apply udp_loop_idle
    · intro i hi
      rw [a3.2.2.1, f_us]
      rw [a3.2.2.2.1, f_uc] at hi
      intro hm
      have := ((hfds _).1 hm).2
      rw [hudp i hi] at this
      exact Bool.false_ne_true this
    · rw [a3.2.2.2.1, f_uc]; omega
  have htcp : tcp_loop L env.conn fds (List.range st2.listensockcount) st2 = Exec.ok () st' := by
    apply tcp_loop_single L env.conn fds l
    · exact List.nodup_range _
    · rw [a3.2.1, f_lc]; exact List.mem_range.2 hl
    · intro i hi hne
      rw [a3.2.1, f_lc] at hi
      rw [a3.1, f_ls]
      intro hm
      have := ((hfds _).1 hm).2
      rw [hlonly i (List.mem_range.1 hi) hne] at this
      exact Bool.false_ne_true this
    · rw [a3.1, f_ls]; exact hlw
    · exact e0
  refine ⟨st', ?_, e3 _ t_k, ?_, ?_, ?_⟩
  · unfold loop_iteration
    simp only [hflag, Bool.false_eq_true, if_false, hv0, hv1, hF, hS, hS2, hudp2, htcp]
  · rw [e1]; simp
  · rw [e2]; simp
  · intro j hj hjk hr
    rw [e1, Function.update_noteq hjk]
    exact c_ready j hj hr

/-- C8 at two concrete passes over `st_full`.  With slot 0 alone ready and a
connection from `10.0.0.9` the connection is stored in slot 0.  With slots 0
and 2 ready and a connection from `10.0.0.5`, which holds slots 0 and 1, the
connection is stored in slot 2 and slot 0 is left free. -/
theorem released_slot_reused_same_pass_witness :
    (((∀ j, j < L2.MAX_UNAUTH_CLIENTS → 0 ≤ st_full.childpipes j)
        ∧ env_one_ready.ready (st_full.childpipes 0) = true
        ∧ (∀ j, j < L2.MAX_UNAUTH_CLIENTS → 0 < j →
            env_one_ready.ready (st_full.childpipes j) = false)
        ∧ (∀ i, i < st_full.udpsockcount → env_one_ready.ready (st_full.udpsocks i) = false)
        ∧ env_one_ready.ready (st_full.listensocks 0) = true
        ∧ (∀ i, i < st_full.listensockcount → i ≠ 0 →
            env_one_ready.ready (st_full.listensocks i) = false)
        ∧ occupied_for_addr_except L2 st_full 0 "10.0.0.9" < L2.MAX_UNAUTH_PER_IP)
      ∧ ∃ st', loop_iteration L2 5 env_one_ready st_full = Exec.ok () st'
        ∧ Event.m_close 10 ∈ st'.trace
        ∧ st'.childpipes 0 = 20
        ∧ st'.preauth_addrs 0 = AddrPtr.live "10.0.0.9"
        ∧ ∀ j, j < L2.MAX_UNAUTH_CLIENTS → j ≠ 0 →
            env_one_ready.ready (st_full.childpipes j) = true → st'.childpipes j = -1)
    ∧ ((env_two_ready_known.ready (st_full.childpipes 2) = true
        ∧ env_two_ready_known.ready (st_full.childpipes 0) = true
        ∧ (∀ j, j < L2.MAX_UNAUTH_CLIENTS → 2 < j →
            env_two_ready_known.ready (st_full.childpipes j) = false)
        ∧ occupied_for_addr_unready L2 env_two_ready_known.ready st_full "10.0.0.5"
            < L2.MAX_UNAUTH_PER_IP
        ∧ ¬ occupied_for_addr_except L2 st_full 2 "10.0.0.5" < L2.MAX_UNAUTH_PER_IP)
      ∧ ∃ st', loop_iteration L2 5 env_two_ready_known st_full = Exec.ok () st'
        ∧ Event.m_close 12 ∈ st'.trace
        ∧ st'.childpipes 2 = 20
        ∧ st'.preauth_addrs 2 = AddrPtr.live "10.0.0.5"
        ∧ ∀ j, j < L2.MAX_UNAUTH_CLIENTS → j ≠ 2 →
            env_two_ready_known.ready (st_full.childpipes j) = true → st'.childpipes j = -1) :=
  ⟨⟨⟨by decide, by decide, by decide, by decide, by decide, by decide, by decide⟩,
    released_slot_reused_same_pass L2 5 env_one_ready st_full 0 0
      (by decide) (by decide) rfl (by decide) (by decide) (by decide) (by decide) (by decide)
      (by decide) (by decide) (by decide) (by decide) (by decide) (Or.inr (by decide))
      (by decide)⟩,
   ⟨⟨by decide, by decide, by decide, by decide, by decide⟩,
    released_slot_reused_same_pass L2 5 env_two_ready_known st_full 2 0
      (by decide) (by decide) rfl (by decide) (by decide) (by decide) (by decide) (by decide)
      (by decide) (by decide) (by decide) (by decide) (by decide) (Or.inl (by decide))
      (by decide)⟩⟩

/-- C8, counterexample to the claim as stated: all four slots are occupied,
the notification handle of slot 0 is ready, the stream listener has a pending
connection from `10.0.0.9` (an address that holds no slot), fork succeeds in
the parent; the handle of slot 2 is ready as well.  The pass releases slot 0
but stores the new connection in slot 2, and slot 0 is left free. -/
theorem released_slot_reuse_counterexample :
    (∀ j, j < L2.MAX_UNAUTH_CLIENTS → 0 ≤ st_full.childpipes j)
    ∧ env_two_ready.ready (st_full.childpipes 0) = true
    ∧ env_two_ready.ready (st_full.listensocks 0) = true
    ∧ 0 ≤ (env_two_ready.conn 0).childsock
    ∧ 0 < (env_two_ready.conn 0).fork_ret
    ∧ occupied_for_addr_except L2 st_full 0 (env_two_ready.conn 0).remote_host
        < L2.MAX_UNAUTH_PER_IP
    ∧ (loop_iteration L2 5 env_two_ready st_full).result = some ()
    ∧ Event.m_close 10 ∈ (loop_iteration L2 5 env_two_ready st_full).state.trace
    ∧ (loop_iteration L2 5 env_two_ready st_full).state.childpipes 0 = -1
    ∧ (loop_iteration L2 5 env_two_ready st_full).state.childpipes 0
        ≠ (env_two_ready.conn 0).pipe_r
    ∧ (loop_iteration L2 5 env_two_ready st_full).state.childpipes 2
        = (env_two_ready.conn 0).pipe_r
    ∧ (loop_iteration L2 5 env_two_ready st_full).state.preauth_addrs 2
        = AddrPtr.live "10.0.0.9" := by
  decide

/-! ## `listensockets` on a configuration without datagram entry -/

theorem size_sub_to_uint_eq (a b : Nat) (h : b ≤ a) (ha : a < UINT_MOD) :
    size_sub_to_uint a b = a - b := by
  unfold size_sub_to_uint
  have h1 : ((a : Int) - (b : Int)) = ((a - b : Nat) : Int) := by omega
  have h2 : a - b < SIZE_MOD := by
    have : UINT_MOD ≤ SIZE_MOD := by decide
    omega
  rw [h1, Int.emod_eq_of_lt (by omega) (by exact_mod_cast h2)]
  simp only [Int.toNat_ofNat]
  exact Nat.mod_eq_of_lt (by omega)

theorem size_add_int_eq (a : Nat) (n : Int) (h0 : 0 ≤ n) (h : (a : Int) + n < (SIZE_MOD : Int)) :
    size_add_int a n = a + n.toNat := by
  unfold size_add_int
  rw [Int.emod_eq_of_lt (by omega) h]
  omega

/-- A pass of the loop of `listensockets` for an entry that is not the
datagram entry. -/
theorem listen_body_stream (env : ListenEnv) (sockcount : Nat) (p : ListenVars × State)
    (i : Nat) (h : i ≠ p.2.svr_opts.udp_port_index) :
    (listen_body env sockcount p i).2.svr_opts = p.2.svr_opts
    ∧ (listen_body env sockcount p i).1.sockpos
        = if (env.listen i (size_sub_to_uint sockcount p.1.sockpos)).nsock < 0 then p.1.sockpos
          else size_add_int p.1.sockpos
            (env.listen i (size_sub_to_uint sockcount p.1.sockpos)).nsock := by
  unfold listen_body
  simp only [h, ne_eq, not_false_eq_true, if_true]
  split
  · simp
  · simp [listen_tail, set_priorities]

/-- Without a datagram entry, with listen calls that respect the capacity they
are given, `listensockets` returns the number of stream sockets created, and
that number is within `sockcount`. -/
theorem listensockets_without_datagram_entry (env : ListenEnv) (sockcount : Nat) (st : State)
    (hcap : sockcount < UINT_MOD)
    (hresp : ∀ i, respects_capacity (env.listen i))
    (hno : st.svr_opts.portcount ≤ st.svr_opts.udp_port_index) :
    (listensockets env sockcount st).1 = stream_listeners_spec env sockcount st.svr_opts
    ∧ (listensockets env sockcount st).1 ≤ sockcount := by
  have key : ∀ n, n ≤ st.svr_opts.portcount →
      ((List.range n).foldl (listen_body env sockcount)
          ({ sockpos := 0, udpsockpos := 0, nsock := 0, udpnsock := 0 }, st)).2.svr_opts
        = st.svr_opts
      ∧ ((List.range n).foldl (listen_body env sockcount)
          ({ sockpos := 0, udpsockpos := 0, nsock := 0, udpnsock := 0 }, st)).1.sockpos
        = (List.range n).foldl (spec_step env sockcount st.svr_opts) 0
      ∧ ((List.range n).foldl (listen_body env sockcount)
          ({ sockpos := 0, udpsockpos := 0, nsock := 0, udpnsock := 0 }, st)).1.sockpos
        ≤ sockcount := by
    intro n
    induction n with
    | zero => intro _; simp
    | succ n ih =>
      intro hn
      obtain ⟨i1, i2, i3⟩ := ih (by omega)
      simp only [List.range_succ, List.foldl_append, List.foldl_cons, List.foldl_nil]
      generalize hp : (List.range n).foldl (listen_body env sockcount)
          ({ sockpos := 0, udpsockpos := 0, nsock := 0, udpnsock := 0 }, st) = p at i1 i2 i3 ⊢
      have hne : n ≠ p.2.svr_opts.udp_port_index := by rw [i1]; omega
      have hne' : n ≠ st.svr_opts.udp_port_index := by omega
      obtain ⟨b1, b2⟩ := listen_body_stream env sockcount p n hne
      have hc : ((size_sub_to_uint sockcount p.1.sockpos : Nat) : Int)
          = ((sockcount - p.1.sockpos : Nat) : Int) := by
        rw [size_sub_to_uint_eq sockcount p.1.sockpos i3 hcap]
      have hr := hresp n (size_sub_to_uint sockcount p.1.sockpos)
      refine ⟨b1.trans i1, ?_, ?_⟩
      · rw [b2, ← i2]
        simp only [spec_step, hne', if_false]
        split
        · rfl
        · rename_i hneg
          rcases hr with hr | hr
          · exact absurd hr hneg
          · apply size_add_int_eq _ _ (by omega)
            have : UINT_MOD ≤ SIZE_MOD := by decide
            have h2 : (UINT_MOD : Int) ≤ (SIZE_MOD : Int) := by exact_mod_cast this
            have h3 : (sockcount : Int) < (UINT_MOD : Int) := by exact_mod_cast hcap
            omega
      · rw [b2]
        split
        · exact i3
        · rename_i hneg
          rcases hr with hr | hr
          · exact absurd hr hneg
          · have h3 : (sockcount : Int) < (UINT_MOD : Int) := by exact_mod_cast hcap
            have hu : (UINT_MOD : Int) ≤ (SIZE_MOD : Int) := by
              have : UINT_MOD ≤ SIZE_MOD := by decide
              exact_mod_cast this
            rw [size_add_int_eq _ _ (by omega) (by omega)]
            omega
  obtain ⟨_, k2, k3⟩ := key st.svr_opts.portcount (le_refl _)
  exact ⟨k2, k3⟩

/-! ## The failure paths in general -/

/-- With the sentinel and a started helper the handler returns the value of
`dropbear_listen` as it is, also when that value is negative. -/
theorem handle_udp_packet_returns_nsock (L : Limits) (t : TriggerEnv) (m : listen_packet_t)
    (count : Nat) (st : State) (hm : m.magic = MAGIC) (hf : 0 < t.fork_ret) :
    (handle_udp_packet L t m count st).result
      = some (t.listen (size_sub_to_uint L.MAX_LISTEN_ADDR count)).nsock := by
  have h0 : ¬ t.fork_ret = 0 := by omega
  simp [handle_udp_packet, hm, hf, h0, Exec.result]

/-- The value a returning handler hands back: 0, or what `dropbear_listen`
returned. -/
theorem handle_udp_packet_ok (L : Limits) (t : TriggerEnv) (m : listen_packet_t)
    (count : Nat) (st st1 : State) (n : Int)
    (h : handle_udp_packet L t m count st = Exec.ok n st1) :
    st1.listensockcount = st.listensockcount
      ∧ (n = 0 ∨ n = (t.listen (size_sub_to_uint L.MAX_LISTEN_ADDR count)).nsock) := by
  unfold handle_udp_packet at h
  split at h
  · split at h
    · cases h
    · split at h
      · simp only [Exec.ok.injEq] at h
        obtain ⟨h1, h2⟩ := h
        subst h2
        refine ⟨?_, Or.inr h1.symm⟩
        split <;> simp
      · cases h; exact ⟨rfl, Or.inl rfl⟩
  · cases h; exact ⟨rfl, Or.inl rfl⟩

/-- A datagram step that comes back keeps the listener count within
`MAX_LISTEN_ADDR`, when it starts within it and `dropbear_listen` respects the
capacity it is given and returns an `int`. -/
theorem udp_ready_keeps_capacity (L : Limits) (d : DatagramEnv) (i : Nat) (fds : List Int)
    (st st' : State) (r : Nat × List Int)
    (hmax : L.MAX_LISTEN_ADDR < UINT_MOD)
    (hc : st.listensockcount ≤ L.MAX_LISTEN_ADDR)
    (hresp : respects_capacity d.trigger.listen)
    (hint : ∀ cap, -(2 ^ 31 : Int) ≤ (d.trigger.listen cap).nsock)
    (h : udp_ready L d i fds st = Exec.ok r st') :
    st'.listensockcount ≤ L.MAX_LISTEN_ADDR := by
  have hU : (UINT_MOD : Int) = 2 ^ 32 := by decide
  have hS : (SIZE_MOD : Int) = 2 ^ 64 := by decide
  have hUn : UINT_MOD = 2 ^ 32 := rfl
  unfold udp_ready at h
  simp only at h
  split at h
  · cases h
  · rename_i nnew st1 hh
    obtain ⟨k1, k2⟩ := handle_udp_packet_ok L _ _ _ _ _ _ hh
    simp only [log_listensockcount] at k1 k2
    unfold add_new_fds at h
    simp only at h
    split at h
    · cases h
    · rename_i i1 fds1 hsome
      split at hsome
      · cases hsome
      · rename_i hb
        cases h
        simp only
        rw [k1] at hb ⊢
        have hcap := size_sub_to_uint_eq L.MAX_LISTEN_ADDR st.listensockcount hc hmax
        rcases k2 with k2 | k2
        · subst k2
          rw [size_add_int_zero _ (by
            have : UINT_MOD ≤ SIZE_MOD := by decide
            omega)]
          exact hc
        · have hr := hresp (size_sub_to_uint L.MAX_LISTEN_ADDR st.listensockcount)
          have hi := hint (size_sub_to_uint L.MAX_LISTEN_ADDR st.listensockcount)
          rw [← k2] at hr hi
          have hcap' : ((size_sub_to_uint L.MAX_LISTEN_ADDR st.listensockcount : Nat) : Int)
              = ((L.MAX_LISTEN_ADDR - st.listensockcount : Nat) : Int) := by rw [hcap]
          have hm' : (L.MAX_LISTEN_ADDR : Int) < 2 ^ 32 := by
            rw [← hU]; exact_mod_cast hmax
          unfold size_add_int at hb ⊢
          rw [hS] at hb ⊢
          rw [hUn] at hb
          rcases hr with hr | hr
          · by_cases hneg : (st.listensockcount : Int) + nnew < 0
            · exfalso
              apply hb
              have e : ((st.listensockcount : Int) + nnew) % (2 ^ 64 : Int)
                  = (st.listensockcount : Int) + nnew + 2 ^ 64 := by
                rw [← Int.add_emod_self]
                exact Int.emod_eq_of_lt (by omega) (by omega)
              rw [e]
              omega
            · rw [Int.emod_eq_of_lt (by omega) (by omega)]
              omega
          · rw [Int.emod_eq_of_lt (by omega) (by omega)]
            omega

/-- The step for a connection that passes admission when `fork` fails: the
accepted descriptor is closed, the slot arrays are untouched, and the two
descriptors of the notification channel stay among the open ones. -/
theorem accept_conn_fork_failure (L : Limits) (c : ConnEnv) (lfd : Int) (st : State)
    (hs : 0 ≤ c.childsock) (hr : admission_rejects L st c.remote_host = false)
    (hp : 0 ≤ c.pipe_ret) (hf : c.fork_ret < 0) :
    ∃ st', accept_conn L c lfd st = Exec.ok () st'
      ∧ st'.childpipes = st.childpipes ∧ st'.preauth_addrs = st.preauth_addrs
      ∧ st'.open_fds
          = (st.open_fds ++ [c.childsock, c.pipe_r, c.pipe_w]).erase c.childsock := by
  have e1 := admission_rejects_congr L st
    ((st.log (Event.accept lfd c.childsock)).opened [c.childsock]) c.remote_host rfl rfl
  have h1 : ¬ c.childsock < 0 := by omega
  have h2 : ¬ c.pipe_ret < 0 := by omega
  have h3 : c.childsock ≠ -1 := by omega
  unfold accept_conn
  simp only [e1, h1, h2, hr, hf, if_false, if_true, Bool.false_eq_true]
  refine ⟨_, rfl, ?_, ?_, ?_⟩
  · simp
  · simp
  · simp [m_close, h3]

/-! ## Inputs on which the code leaves its description -/

theorem env_full_respects_capacity (i : Nat) :
    respects_capacity (env_full.listen i) ∧ respects_capacity (env_full.open_udp i) := by
  constructor
  · intro cap
    by_cases h : cap = 0
    · left; simp [env_full, h, failed_listen]
    · right
      simp only [env_full, h, if_false, listen_ok]
      omega
  · intro cap
    by_cases h : cap = 0
    · left; simp [env_full, h, failed_listen]
    · right
      simp only [env_full, h, if_false, listen_ok]
      omega

/-- C4, failing input: the configuration `opts0` (stream entry 0, datagram
entry 1) with listen primitives that respect the capacity they are given.  The
first entry fills the capacity and the pass for the datagram entry adds the
stale `nsock` once more: with `MAX_LISTEN_ADDR = 3` `listensockets` returns 6
and the dispatch loop starts with a listener count of 6, with
`MAX_LISTEN_ADDR = 30` it is 60. -/
theorem listensockets_exceeds_capacity :
    ((∀ i, respects_capacity (env_full.listen i))
      ∧ (∀ i, respects_capacity (env_full.open_udp i)))
    ∧ L2.MAX_LISTEN_ADDR = 3
    ∧ (listensockets env_full L2.MAX_LISTEN_ADDR st_boot).1 = 6
    ∧ (startup L2 env_full st_boot).result = some ()
    ∧ (startup L2 env_full st_boot).state.listensockcount = 6
    ∧ L30.MAX_LISTEN_ADDR = 30
    ∧ (startup L30 env_full st_boot).result = some ()
    ∧ (startup L30 env_full st_boot).state.listensockcount = 60 :=
  ⟨⟨fun i => (env_full_respects_capacity i).1, fun i => (env_full_respects_capacity i).2⟩,
   by decide, by decide, by decide, by decide, by decide, by decide, by decide⟩

/-- C5, failing input: on the configuration `opts0` the listen attempt on the
stream entry creates two sockets and the open attempt on the datagram entry
one; three descriptors are open afterwards, two of them stream sockets, and
`listensockets` returns 4: the pass for the datagram entry runs lines 582-590
with the `nsock` of the entry before it. -/
theorem listensockets_counts_datagram_pass :
    (listensockets env_two_stream 3 st_boot).1 = 4
    ∧ stream_listeners_spec env_two_stream 3 st_boot.svr_opts = 2
    ∧ (listensockets env_two_stream 3 st_boot).2.open_fds = [3, 4, 5]
    ∧ (listensockets env_two_stream 3 st_boot).2.udpsockcount = 1 := by
  decide

/-- C6, failing input: a datagram with the sentinel whose helper was started
and whose `dropbear_listen` call fails makes `handle_udp_packet` return -1,
and the pass of the dispatch loop that handles it takes the listener count
from 1 to 0. -/
theorem failed_trigger_listen_shrinks_count :
    failing_trigger.msg.magic = MAGIC
    ∧ (failing_trigger.trigger.listen
        (size_sub_to_uint L2.MAX_LISTEN_ADDR st0.listensockcount)).nsock < 0
    ∧ (handle_udp_packet L2 failing_trigger.trigger failing_trigger.msg
        st0.listensockcount st0).result = some (-1)
    ∧ st0.listensockcount = 1
    ∧ (loop_iteration L2 5 env_trigger st0).result = some ()
    ∧ (loop_iteration L2 5 env_trigger st0).state.listensockcount = 0 := by
  decide

/-- C9, failing input: a connection that passes admission, whose `pipe`
succeeds and whose `fork` fails.  The step comes back with the slot arrays
untouched and the accepted descriptor 9 closed, but both ends of the
notification channel (10 and 11) are still open. -/
theorem fork_failure_leaks_channel :
    admission_rejects L2 st_two conn_fork_fails.remote_host = false
    ∧ 0 ≤ conn_fork_fails.pipe_ret ∧ conn_fork_fails.fork_ret < 0
    ∧ (accept_conn L2 conn_fork_fails 3 st_two).result = some ()
    ∧ (∀ j, j < L2.MAX_UNAUTH_CLIENTS →
        (accept_conn L2 conn_fork_fails 3 st_two).state.childpipes j = st_two.childpipes j
        ∧ (accept_conn L2 conn_fork_fails 3 st_two).state.preauth_addrs j
            = st_two.preauth_addrs j)
    ∧ st_two.open_fds = [3, 4, 6, 8]
    ∧ (accept_conn L2 conn_fork_fails 3 st_two).state.open_fds = [3, 4, 6, 8, 10, 11] := by
  decide

end Dropbear
